import Mathlib

/-!
Shallow embedding of the adaptive interview engine implemented in `src/app.py`
of the Pebble Decision Coach repository, together with theorems checking the
natural-language specification against that code.

Conventions used throughout:
* Python strings are Lean `String`s; `str.strip`, `re` patterns and the
  similarity helpers are translated character-for-character from the source.
* the Python `re` class `\s` (resp. `\d`, `\w`) matches a handful of rare
  non-ASCII code points in addition to the ASCII ones; the embedding models
  the ASCII part plus the Hangul range explicitly named by the source
  patterns, which covers every string the program manipulates.
* The text-generation collaborator is an environment: it is modelled as a
  list of `Option String` responses consumed in call order (`none` = the
  call failed or produced no text, mirroring the
  `(text | None, error | None)` contract of `call_openai_text`).
-/

namespace Pebble

/-- Whitespace for the Python `str.strip()` and the regex class `\s`
(ASCII portion). -/
def isPyWs (c : Char) : Bool :=
  c = ' ' || c = '\t' || c = '\n' || c = '\r' || c = '\x0b' || c = '\x0c'

/-- Python `str.strip()` on a character list. -/
def pyStripL (l : List Char) : List Char :=
  ((l.dropWhile isPyWs).reverse.dropWhile isPyWs).reverse

/-- Python `str.strip()`. -/
def pyStrip (s : String) : String := String.mk (pyStripL s.data)

/-- Collapses every run of two or more spaces to a single space
(used after mapping each whitespace character to a space, this is
exactly `re.sub(r"\s+", " ", s)`). -/
def squeezeSpaces : List Char → List Char
  | [] => []
  | [c] => [c]
  | a :: b :: rest =>
    if a = ' ' && b = ' ' then squeezeSpaces (b :: rest)
    else a :: squeezeSpaces (b :: rest)

/-- Python `re.sub(r"\s+", " ", s)`: every maximal whitespace run becomes one
space. -/
def collapseWsStr (s : String) : String :=
  String.mk (squeezeSpaces (s.data.map (fun c => if isPyWs c then ' ' else c)))

/-- Embeds `normalize` (src/app.py:571): strip, then collapse internal
whitespace runs to one space. -/
def normalize (s : String) : String :=
  collapseWsStr (pyStrip s)

/-- Substring occurrence test on character lists (the Python `in`). -/
def containsSub : List Char → List Char → Bool
  | [], pat => pat.isEmpty
  | c :: rest, pat => pat.isPrefixOf (c :: rest) || containsSub rest pat

/-- Python `pat in s` for strings. -/
def pyIn (pat s : String) : Bool := containsSub s.data pat.data

/-- Matches the regex fragment `p1\s*p2` at the head of `l` (greedy `\s*` is
correct here because `p2` never starts with whitespace in the patterns
of the source). -/
def matchWsOptAt (l p1 p2 : List Char) : Bool :=
  p1.isPrefixOf l && p2.isPrefixOf ((l.drop p1.length).dropWhile isPyWs)

/-- `re.search` of the pattern `p1\s*p2` anywhere in the haystack. -/
def containsWsOpt : List Char → List Char → List Char → Bool
  | [], p1, p2 => matchWsOptAt [] p1 p2
  | c :: rest, p1, p2 => matchWsOptAt (c :: rest) p1 p2 || containsWsOpt rest p1 p2

/-- Probing threshold `MIN_ANSWER_CHARS` (src/app.py:170). -/
def MIN_ANSWER_CHARS : ℕ := 10

/-- Disjunction of the `CONFUSED_ANSWER_PATTERNS` regexes (src/app.py:173):
`모르겠`, `잘\s*모르`, `감이\s*안`, `생각이\s*안`, `어렵`, each searched anywhere
in the answer. -/
def has_confused_keyword (a : String) : Bool :=
  pyIn "모르겠" a ||
  containsWsOpt a.data "잘".data "모르".data ||
  containsWsOpt a.data "감이".data "안".data ||
  containsWsOpt a.data "생각이".data "안".data ||
  pyIn "어렵" a

/-- Disjunction of the `SHORT_ANSWER_PATTERNS` regexes (src/app.py:182); the
first four are anchored at the start (`^모르겠`, `^잘\s*모르`, `^그냥`, `^없어`),
the last three are whole-string matches (`^모름$`, `^ㄴㄴ$`, `^몰라$`; `$` also
matches just before a final newline). -/
def matches_short_pattern (a : String) : Bool :=
  let l := a.data
  List.isPrefixOf "모르겠".data l ||
  matchWsOptAt l "잘".data "모르".data ||
  List.isPrefixOf "그냥".data l ||
  List.isPrefixOf "없어".data l ||
  (a = "모름" || a = "모름\n") ||
  (a = "ㄴㄴ" || a = "ㄴㄴ\n") ||
  (a = "몰라" || a = "몰라\n")

/-- Embeds `is_too_short_answer` (src/app.py:602): the stripped answer is
shorter than `MIN_ANSWER_CHARS` or matches a refusal pattern.  (`None` input
is mapped to `""` by the `(ans or "")` guard of the source, so the empty string
covers it.) -/
def is_too_short_answer (ans : String) : Bool :=
  (pyStrip ans).length < MIN_ANSWER_CHARS || matches_short_pattern (pyStrip ans)

/-- Relative-time signal of `_has_meaningful_content` (src/app.py:625): the
regex `(이번\s*주|다음\s*주|이번\s*달|올해|내년|오늘|내일|어제|주말)`. -/
def relative_time_signal (a : String) : Bool :=
  containsWsOpt a.data "이번".data "주".data ||
  containsWsOpt a.data "다음".data "주".data ||
  containsWsOpt a.data "이번".data "달".data ||
  pyIn "올해" a || pyIn "내년" a || pyIn "오늘" a ||
  pyIn "내일" a || pyIn "어제" a || pyIn "주말" a

/-- Enumerated-option signal of `_has_meaningful_content` (src/app.py:627):
the regex `(A|B|C)\s*(안|을|를)?`.  Because the trailing group is optional the
regex matches exactly when the answer contains one of the capital letters
`A`, `B`, `C`. -/
def option_marker_signal (a : String) : Bool :=
  a.data.any (fun c => c = 'A' || c = 'B' || c = 'C')

/-- Number of information-density signals counted by
`_has_meaningful_content` (src/app.py:622-633) on the already-normalized
answer: digit, relative-time phrase, enumerated option marker,
length ≥ 35, at least two commas. -/
def density_signals (a : String) : ℕ :=
  (if a.data.any (fun c => c.isDigit) then 1 else 0) +
  (if relative_time_signal a then 1 else 0) +
  (if option_marker_signal a then 1 else 0) +
  (if 35 ≤ a.length then 1 else 0) +
  (if 2 ≤ (a.data.filter (fun c => c = ',')).length then 1 else 0)

/-- Embeds `_has_meaningful_content` (src/app.py:612): normalizes the answer
and requires at least two density signals. -/
def has_meaningful_content (ans : String) : Bool :=
  if normalize ans = "" then false
  else decide (2 ≤ density_signals (normalize ans))

/-- Embeds `is_confused_answer` (src/app.py:638): a confusion keyword must be
present, and the answer must in addition be too short or lack meaningful
content (the Python local `a` is the stripped answer). -/
def is_confused_answer (ans : String) : Bool :=
  if pyStrip ans = "" then false
  else if !(has_confused_keyword (pyStrip ans)) then false
  else if is_too_short_answer (pyStrip ans) then true
  else if !(has_meaningful_content (pyStrip ans)) then true
  else false

/-- Characters kept by the tokenizer of `token_overlap` (src/app.py:579):
`re.sub(r"[^\w가-힣 ]", " ", s)` keeps word characters, Hangul syllables and
spaces (everything else becomes a space). -/
def isTokKeep (c : Char) : Bool :=
  c.isAlphanum || c = '_' || (0xAC00 ≤ c.toNat && c.toNat ≤ 0xD7A3) || c = ' '

/-- ASCII lowering, Python `str.lower()` on the text handled here. -/
def pyLower (s : String) : String := String.mk (s.data.map Char.toLower)

/-- Python `s.split(" ")` on a character list: split at every single space,
consecutive separators producing empty fields. -/
def splitSp : List Char → List (List Char)
  | [] => [[]]
  | c :: rest =>
    if c = ' ' then [] :: splitSp rest
    else
      match splitSp rest with
      | [] => [[c]]
      | t :: ts => (c :: t) :: ts

/-- Token list of `token_overlap.toks` (src/app.py:578-581): strip
punctuation, collapse whitespace, strip, lower, split on spaces, keep tokens
of length ≥ 2. -/
def toksList (s : String) : List String :=
  let cleaned := String.mk (s.data.map (fun c => if isTokKeep c then c else ' '))
  let flat := pyLower (pyStrip (collapseWsStr cleaned))
  ((splitSp flat.data).map String.mk).filter (fun t => 2 ≤ t.length)

/-- Token set (`set(...)` in the source). -/
def toks (s : String) : Finset String := (toksList s).toFinset

/-- Embeds `token_overlap` (src/app.py:577): intersection size over
`max(1, min(|ta|, |tb|))`, and `0.0` when either token set is empty.
Rationals model the Python float division exactly on these values. -/
def token_overlap (a b : String) : ℚ :=
  if toks a = ∅ ∨ toks b = ∅ then 0
  else ((toks a ∩ toks b).card : ℚ) /
    ((max 1 (min (toks a).card (toks b).card) : ℕ) : ℚ)

/-- Embeds `is_similar` (src/app.py:591): equal after normalization, one a
substring of the other, or token overlap at least 0.75.  The final test is
`token_overlap(a0, b0) >= 0.75`; it is written over the naturals
(`3 * denom ≤ 4 * inter`) because rational arithmetic does not reduce in the
kernel — `token_overlap_threshold_iff` below proves the form used here is
exactly `3/4 ≤ token_overlap a0 b0`. -/
def is_similar (a b : String) : Bool :=
  let a0 := normalize a
  let b0 := normalize b
  if a0 = "" || b0 = "" then false
  else if a0 = b0 then true
  else if pyIn a0 b0 || pyIn b0 a0 then true
  else
    decide (3 * max 1 (min (toks a0).card (toks b0).card) ≤
      4 * (toks a0 ∩ toks b0).card)

/-! ### JSON values and the defensive parser (src/app.py:684-739) -/

/-- JSON values as produced by `json.loads`.  Numbers keep their literal
text: the program never computes with numbers, and the integer literals
appearing here round-trip unchanged through the Python parse/serialize.
An object keeps its field list in input order; lookups take the LAST
binding of a key, matching the dict semantics (the program never
serializes an object with duplicate keys). -/
inductive JVal where
  | jnull : JVal
  | jbool : Bool → JVal
  | jnum : String → JVal
  | jstr : String → JVal
  | jarr : List JVal → JVal
  | jobj : List (String × JVal) → JVal
deriving Repr, Inhabited

/-- JSON whitespace accepted between tokens by `json.loads`. -/
def isJsonWs (c : Char) : Bool :=
  c = ' ' || c = '\t' || c = '\n' || c = '\r'

/-- Value of a hexadecimal digit. -/
def hexDigitVal (c : Char) : Option ℕ :=
  if '0' ≤ c ∧ c ≤ '9' then some (c.toNat - 48)
  else if 'a' ≤ c ∧ c ≤ 'f' then some (c.toNat - 87)
  else if 'A' ≤ c ∧ c ≤ 'F' then some (c.toNat - 55)
  else none

/-- Body of a JSON string (after the opening quote), with the standard
escapes; `\uXXXX` surrogate-pair recombination is not modelled (no input
handled here uses it). -/
def parseStrBody : ℕ → List Char → List Char → Option (String × List Char)
  | 0, _, _ => none
  | _ + 1, [], _ => none
  | fuel + 1, c :: rest, acc =>
    if c = '"' then some (String.mk acc.reverse, rest)
    else if c = '\\' then
      match rest with
      | [] => none
      | e :: rest2 =>
        if e = '"' then parseStrBody fuel rest2 ('"' :: acc)
        else if e = '\\' then parseStrBody fuel rest2 ('\\' :: acc)
        else if e = '/' then parseStrBody fuel rest2 ('/' :: acc)
        else if e = 'b' then parseStrBody fuel rest2 ('\x08' :: acc)
        else if e = 'f' then parseStrBody fuel rest2 ('\x0c' :: acc)
        else if e = 'n' then parseStrBody fuel rest2 ('\n' :: acc)
        else if e = 'r' then parseStrBody fuel rest2 ('\r' :: acc)
        else if e = 't' then parseStrBody fuel rest2 ('\t' :: acc)
        else if e = 'u' then
          match rest2 with
          | h1 :: h2 :: h3 :: h4 :: rest3 =>
            match hexDigitVal h1, hexDigitVal h2, hexDigitVal h3, hexDigitVal h4 with
            | some v1, some v2, some v3, some v4 =>
              parseStrBody fuel rest3
                (Char.ofNat (((v1 * 16 + v2) * 16 + v3) * 16 + v4) :: acc)
            | _, _, _, _ => none
          | _ => none
        else none
    else parseStrBody fuel rest (c :: acc)

/-- One or more decimal digits. -/
def takeDigits1 (l : List Char) : Option (List Char × List Char) :=
  match l.takeWhile (fun c => c.isDigit) with
  | [] => none
  | ds => some (ds, l.drop ds.length)

/-- JSON numeric literal `-? int frac? exp?`, returned as the consumed
characters plus the remainder. -/
def parseNumLit (l : List Char) : Option (List Char × List Char) :=
  let (sign, l1) :=
    match l with
    | '-' :: t => (['-'], t)
    | _ => (([] : List Char), l)
  match l1 with
  | [] => none
  | c :: t =>
    if c = '0' then
      let (intPart, r1) := ([c], t)
      (parseFracExp r1).map (fun (fe, r2) => (sign ++ intPart ++ fe, r2))
    else if c.isDigit then
      let ds := t.takeWhile (fun d => d.isDigit)
      let (intPart, r1) := (c :: ds, t.drop ds.length)
      (parseFracExp r1).map (fun (fe, r2) => (sign ++ intPart ++ fe, r2))
    else none
where
  /-- Optional fraction and exponent. -/
  parseFracExp (l : List Char) : Option (List Char × List Char) :=
    let (frac?, r1) :=
      match l with
      | '.' :: t =>
        match takeDigits1 t with
        | some (ds, r) => (some ('.' :: ds), r)
        | none => (none, l)
      | _ => (none, l)
    match frac?, l with
    | none, '.' :: _ => none
    | _, _ =>
      let fracCs := frac?.getD []
      match r1 with
      | e :: t =>
        if e = 'e' ∨ e = 'E' then
          let (signCs, t2) :=
            match t with
            | s :: t2 => if s = '+' ∨ s = '-' then ([s], t2) else (([] : List Char), t)
            | [] => (([] : List Char), t)
          match takeDigits1 t2 with
          | some (ds, r) => some (fracCs ++ e :: signCs ++ ds, r)
          | none => none
        else some (fracCs, r1)
      | [] => some (fracCs, r1)

mutual

/-- Recursive-descent JSON value parser (fuel-indexed; the fuel is always
ample in `jsonLoads`, so running out models no real behaviour). -/
def parseVal : ℕ → List Char → Option (JVal × List Char)
  | 0, _ => none
  | fuel + 1, l =>
    match l.dropWhile isJsonWs with
    | [] => none
    | c :: r =>
      if c = '\x7b' then
        match r.dropWhile isJsonWs with
        | '\x7d' :: r2 => some (.jobj [], r2)
        | r' => parseMembers fuel r' []
      else if c = '[' then
        match r.dropWhile isJsonWs with
        | ']' :: r2 => some (.jarr [], r2)
        | r' => parseElems fuel r' []
      else if c = '"' then
        (parseStrBody (r.length + 1) r []).map (fun p => (.jstr p.1, p.2))
      else if c = 't' then
        if "rue".data.isPrefixOf r then some (.jbool true, r.drop 3) else none
      else if c = 'f' then
        if "alse".data.isPrefixOf r then some (.jbool false, r.drop 4) else none
      else if c = 'n' then
        if "ull".data.isPrefixOf r then some (.jnull, r.drop 3) else none
      else
        (parseNumLit (c :: r)).map (fun p => (.jnum (String.mk p.1), p.2))

/-- Members of a JSON object, positioned at a key. -/
def parseMembers : ℕ → List Char → List (String × JVal) → Option (JVal × List Char)
  | 0, _, _ => none
  | fuel + 1, l, acc =>
    match l.dropWhile isJsonWs with
    | '"' :: r =>
      match parseStrBody (r.length + 1) r [] with
      | none => none
      | some (k, r2) =>
        match r2.dropWhile isJsonWs with
        | ':' :: r3 =>
          match parseVal fuel r3 with
          | none => none
          | some (v, r4) =>
            match r4.dropWhile isJsonWs with
            | ',' :: r5 => parseMembers fuel r5 (acc ++ [(k, v)])
            | '\x7d' :: r5 => some (.jobj (acc ++ [(k, v)]), r5)
            | _ => none
        | _ => none
    | _ => none

/-- Elements of a JSON array, positioned at a value. -/
def parseElems : ℕ → List Char → List JVal → Option (JVal × List Char)
  | 0, _, _ => none
  | fuel + 1, l, acc =>
    match parseVal fuel l with
    | none => none
    | some (v, r) =>
      match r.dropWhile isJsonWs with
      | ',' :: r2 => parseElems fuel r2 (acc ++ [v])
      | ']' :: r2 => some (.jarr (acc ++ [v]), r2)
      | _ => none

end

/-- Python `json.loads`: parse the whole text, rejecting trailing data. -/
def jsonLoads (s : String) : Option JVal :=
  match parseVal (s.data.length + 1) s.data with
  | some (v, rest) => if (rest.dropWhile isJsonWs).isEmpty then some v else none
  | none => none

/-- Lowercase hexadecimal digit. -/
def hexDigitChar (n : ℕ) : Char :=
  if n < 10 then Char.ofNat (48 + n) else Char.ofNat (87 + n)

/-- Escape of one character inside a serialized JSON string
(`json.dumps` with `ensure_ascii=False`: only quotes, backslashes and
control characters are escaped). -/
def escJChar (c : Char) : String :=
  if c = '"' then "\\\""
  else if c = '\\' then "\\\\"
  else if c = '\n' then "\\n"
  else if c = '\r' then "\\r"
  else if c = '\t' then "\\t"
  else if c = '\x08' then "\\b"
  else if c = '\x0c' then "\\f"
  else if c.toNat < 0x20 then
    "\\u00" ++ String.mk [hexDigitChar (c.toNat / 16), hexDigitChar (c.toNat % 16)]
  else String.mk [c]

/-- Escaped JSON string body. -/
def escJStr (s : String) : String := String.join (s.data.map escJChar)

mutual

/-- Python `json.dumps(..., ensure_ascii=False)` with the default
separators `", "` and `": "`. -/
def json_dumps : JVal → String
  | .jnull => "null"
  | .jbool true => "true"
  | .jbool false => "false"
  | .jnum lit => lit
  | .jstr s => "\"" ++ escJStr s ++ "\""
  | .jarr xs => "[" ++ dumpsElems xs ++ "]"
  | .jobj fs => "\x7b" ++ dumpsFields fs ++ "\x7d"

/-- Comma-separated array elements. -/
def dumpsElems : List JVal → String
  | [] => ""
  | [x] => json_dumps x
  | x :: y :: rest => json_dumps x ++ ", " ++ dumpsElems (y :: rest)

/-- Comma-separated object fields. -/
def dumpsFields : List (String × JVal) → String
  | [] => ""
  | [(k, v)] => "\"" ++ escJStr k ++ "\": " ++ json_dumps v
  | (k, v) :: f :: rest =>
    "\"" ++ escJStr k ++ "\": " ++ json_dumps v ++ ", " ++ dumpsFields (f :: rest)

end

/-- Balanced-brace scan of `extract_json_candidates` (src/app.py:684):
collect every top-level `\x7b...\x7d` block, in order. -/
def scanBlocks : List Char → ℕ → List Char → List String → List String
  | [], _, _, acc => acc.reverse
  | c :: rest, stack, cur, acc =>
    if c = '\x7b' then
      if stack = 0 then scanBlocks rest 1 ['\x7b'] acc
      else scanBlocks rest (stack + 1) (cur ++ ['\x7b']) acc
    else if c = '\x7d' then
      if stack = 0 then scanBlocks rest 0 cur acc
      else if stack = 1 then
        let block := pyStrip (String.mk (cur ++ ['\x7d']))
        scanBlocks rest 0 [] (if 2 ≤ block.length then block :: acc else acc)
      else scanBlocks rest (stack - 1) (cur ++ ['\x7d']) acc
    else
      if stack = 0 then scanBlocks rest 0 cur acc
      else scanBlocks rest stack (cur ++ [c]) acc

/-- Deduplication keeping first occurrences (the Python `set(...)` iterates
in an unspecified order; only membership matters downstream, ties of equal
length never arise in the runs considered here). -/
def dedupKeepFirst : List String → List String → List String
  | [], _ => []
  | x :: xs, seen =>
    if x ∈ seen then dedupKeepFirst xs seen else x :: dedupKeepFirst xs (x :: seen)

/-- Stable insertion keeping longer strings first. -/
def insertByLen (x : String) : List String → List String
  | [] => [x]
  | y :: ys => if y.length < x.length then x :: y :: ys else y :: insertByLen x ys

/-- Stable sort by length, longest first (`sorted(..., key=len, reverse=True)`). -/
def sortByLenDesc (l : List String) : List String := l.foldr insertByLen []

/-- Embeds `extract_json_candidates` (src/app.py:684). -/
def extract_json_candidates (text : String) : List String :=
  if text = "" then []
  else sortByLenDesc (dedupKeepFirst (scanBlocks (pyStrip text).data 0 [] []) [])

/-- First candidate that parses to a JSON object. -/
def firstObjParse : List String → Option JVal
  | [] => none
  | c :: rest =>
    match jsonLoads c with
    | some (.jobj fs) => some (.jobj fs)
    | _ => firstObjParse rest

/-- Embeds `safe_json_parse` (src/app.py:717): whole-string parse first
(kept only if it is a dict), then the brace-scan candidates. -/
def safe_json_parse (text : String) : Option JVal :=
  if text = "" then none
  else
    match jsonLoads (pyStrip text) with
    | some (.jobj fs) => some (.jobj fs)
    | _ => firstObjParse (extract_json_candidates (pyStrip text))

/-- Python `dict` lookup on parsed JSON (later duplicate keys overwrite
earlier ones, hence the last match). -/
def jget (fs : List (String × JVal)) (k : String) : Option JVal :=
  ((fs.filter (fun p => p.1 = k)).getLast?).map (fun p => p.2)

/-- Whether a numeric literal denotes zero. -/
def jnumIsZero (lit : String) : Bool :=
  ((lit.data.takeWhile (fun c => c ≠ 'e' ∧ c ≠ 'E')).filter
    (fun c => c.isDigit)).all (fun c => c = '0')

/-- Python truthiness of a JSON value. -/
def pyTruthy : JVal → Bool
  | .jnull => false
  | .jbool b => b
  | .jnum lit => !(jnumIsZero lit)
  | .jstr s => s ≠ ""
  | .jarr xs => !xs.isEmpty
  | .jobj fs => !fs.isEmpty

mutual

/-- Python `str(...)` of a JSON value (containers use `repr` of their
elements; string reprs are modelled without escape refinements, which no
input here exercises). -/
def pyStr : JVal → String
  | .jstr s => s
  | .jbool true => "True"
  | .jbool false => "False"
  | .jnull => "None"
  | .jnum lit => lit
  | .jarr xs => "[" ++ pyReprElems xs ++ "]"
  | .jobj fs => "\x7b" ++ pyReprFields fs ++ "\x7d"

/-- Python `repr(...)` of a JSON value. -/
def pyRepr : JVal → String
  | .jstr s => "\x27" ++ s ++ "\x27"
  | v => pyStr v

/-- Comma-separated element reprs. -/
def pyReprElems : List JVal → String
  | [] => ""
  | [x] => pyRepr x
  | x :: y :: rest => pyRepr x ++ ", " ++ pyReprElems (y :: rest)

/-- Comma-separated field reprs. -/
def pyReprFields : List (String × JVal) → String
  | [] => ""
  | [(k, v)] => "\x27" ++ k ++ "\x27: " ++ pyRepr v
  | (k, v) :: f :: rest =>
    "\x27" ++ k ++ "\x27: " ++ pyRepr v ++ ", " ++ pyReprFields (f :: rest)

end

/-! ### textwrap.dedent -/

/-- Space or tab (the only characters `textwrap.dedent` treats as margin). -/
def isSpTab (c : Char) : Bool := c = ' ' || c = '\t'

/-- Split a character list at every newline. -/
def splitNl : List Char → List (List Char)
  | [] => [[]]
  | c :: rest =>
    if c = '\n' then [] :: splitNl rest
    else
      match splitNl rest with
      | [] => [[c]]
      | t :: ts => (c :: t) :: ts

/-- Join lines with newlines. -/
def joinNl : List (List Char) → List Char
  | [] => []
  | [l] => l
  | l :: l2 :: rest => l ++ '\n' :: joinNl (l2 :: rest)

/-- Longest shared leading run of two margins. -/
def sharedLead : List Char → List Char → List Char
  | a :: as, b :: bs => if a = b then a :: sharedLead as bs else []
  | _, _ => []

/-- Leading space-tab margin of a line, provided the line has a
non-space-tab character (lines without one do not contribute a margin). -/
def lineMargin (l : List Char) : Option (List Char) :=
  if l.any (fun c => !(isSpTab c)) then some (l.takeWhile isSpTab) else none

/-- Python `textwrap.dedent`: blank out whitespace-only lines, compute the
longest margin shared by all remaining lines, and strip it from every line
that carries it. -/
def dedent (s : String) : String :=
  let ls := (splitNl s.data).map
    (fun l => if l ≠ [] ∧ l.all isSpTab then [] else l)
  let margin :=
    match ls.filterMap lineMargin with
    | [] => ([] : List Char)
    | i :: rest => rest.foldl sharedLead i
  if margin = [] then String.mk (joinNl ls)
  else
    String.mk (joinNl (ls.map
      (fun l => if margin.isPrefixOf l then l.drop margin.length else l)))

/-! ### Session state (st.session_state fields used by the engine) -/

/-- One submitted answer, mirroring the dict built by `add_answer`
(src/app.py:551).  The timestamp comes from the wall clock and is read by no
logic, so it is modelled as the empty string. -/
structure AnswerRecord where
  q : String
  a : String
  ts : String
  kind : String
  subkind : String
  main_index : ℕ
deriving DecidableEq, Repr, Inhabited

/-- The engine-relevant slice of `st.session_state` (src/app.py:518-548).
UI-only fields (emotion sliders, debug log, report caches, privacy toggles)
are omitted; `q_index` is clamped to be non-negative by every reader, so a
natural number is faithful. -/
structure Session where
  category : String
  decision_type : String
  coach_id : String
  goal : String
  options : String
  situation : String
  num_questions : ℕ
  q_index : ℕ
  questions : List String
  answers : List AnswerRecord
  probe_active : Bool
  probe_question : String
  probe_for_index : Option ℕ
  probe_mode : String
  crosscheck_used_for : List ℕ
  page : String
deriving DecidableEq, Repr

/-- Embeds `add_answer` (src/app.py:551). -/
def add_answer (s : Session) (q a kind : String) (main_index : ℕ) (subkind : String) :
    Session :=
  { s with answers := s.answers ++
      [{ q := q, a := a, ts := "", kind := kind, subkind := subkind,
         main_index := main_index }] }

/-- Embeds `main_answer_count` (src/app.py:564). -/
def main_answer_count (s : Session) : ℕ :=
  (s.answers.filter (fun x => x.kind = "main")).length

/-- Python `s.split(sep)` for a one-character separator. -/
def splitOnCh (sep : Char) : List Char → List (List Char)
  | [] => [[]]
  | c :: rest =>
    if c = sep then [] :: splitOnCh sep rest
    else
      match splitOnCh sep rest with
      | [] => [[c]]
      | t :: ts => (c :: t) :: ts

/-- Embeds `parse_options` (src/app.py:659): split the options field on
commas, strip each part, drop empties. -/
def parse_options (s : Session) : List String :=
  ((splitOnCh ',' s.options.data).map (fun l => pyStrip (String.mk l))).filter
    (fun o => o ≠ "")

/-- Python `x or d` for strings. -/
def pyOr (x d : String) : String := if x = "" then d else x

/-! ### The collaborator -/

/-- Environment of collaborator replies, consumed in call order. -/
abbrev Oracle : Type := List (Option String)

/-- Embeds the call contract of `call_openai_text` (src/app.py:348): the
reply depends on the remote model, so it is the next oracle entry; the
prompts and temperature only parameterize that remote call.  An exhausted
oracle models a failing collaborator. -/
def call_openai_text (system user : String) (temperature : ℚ) (o : Oracle) :
    Option String × Oracle :=
  match system, user, temperature, o with
  | _, _, _, [] => (none, [])
  | _, _, _, r :: rest => (r, rest)

/-- Python falsiness of an optional text (`if not txt:`): `None` or `""`. -/
def isBlank : Option String → Bool
  | none => true
  | some t => t = ""

/-- Coach ids, in `COACHES` order (src/app.py:129-167). -/
def COACH_IDS : List String := ["logic", "value", "action"]

/-- Embeds `coach_by_id` (src/app.py:411).  The engine reads only
`coach["id"]` from the returned dict, so the model returns the id; the
first-match loop with default `COACHES[0]` is membership with default
`"logic"`. -/
def coach_by_id (coach_id : String) : String :=
  if coach_id ∈ COACH_IDS then coach_id else "logic"

/-! ### Prompt builders (string-level, faithful to the f-strings) -/

/-- Embeds `system_prompt_for_questions` (src/app.py:844). -/
def system_prompt_for_questions (coach_id : String) : String :=
  let base :=
    "당신은 \x27AI 결정 코칭 앱\x27의 질문 생성기입니다.\n정답/해결책/추천을 주지 말고, 사용자가 스스로 생각을 정리하도록 질문만 던지세요.\n금지: 결론, 추천, 선택 강요, 판단문(예: A가 낫다), 지시문(해야 한다/하자).\n출력: 질문 1개만. (설명/번호/머리말 금지)\n"
  if coach_id = "logic" then base ++ "스타일: 구조화/기준/역발상(가정 깨기) 질문.\n"
  else if coach_id = "value" then
    base ++ "스타일: 감정 라벨링 + 감정/가치 분리 + 후회 최소화 질문.\n"
  else base ++ "스타일: If-Then 트리거/프리모템/우선순위/Quick Win을 모두 질문으로만 유도.\n"

/-- One line of the Q/A history in the tagged format of
`build_context_block` / `build_qa_text_for_report`. -/
def qa_line (i : ℕ) (qa : AnswerRecord) : String :=
  toString i ++ ") (" ++ (if qa.kind = "probe" then "PROBE" else "MAIN") ++
    ") Q: " ++ qa.q ++ "\n   A: " ++ qa.a ++ "\n"

/-- Enumerated concatenation of tagged Q/A lines, starting at `i`. -/
def qa_concat : ℕ → List AnswerRecord → String
  | _, [] => ""
  | i, qa :: rest => qa_line i qa ++ qa_concat (i + 1) rest

/-- Untagged Q/A line of `crosscheck_user_prompt`. -/
def qa_plain_line (i : ℕ) (qa : AnswerRecord) : String :=
  toString i ++ ") Q: " ++ qa.q ++ "\n   A: " ++ qa.a ++ "\n"

/-- Enumerated concatenation of untagged Q/A lines, starting at `i`. -/
def qa_plain_concat : ℕ → List AnswerRecord → String
  | _, [] => ""
  | i, qa :: rest => qa_plain_line i qa ++ qa_plain_concat (i + 1) rest

/-- Newline join (Python `"\n".join`). -/
def nlJoin : List String → String
  | [] => ""
  | [x] => x
  | x :: y :: rest => x ++ "\n" ++ nlJoin (y :: rest)

/-- Embeds `build_context_block` (src/app.py:858): session metadata plus the
last six raw Q/A pairs, then `textwrap.dedent(...).strip()` exactly as the
source applies them to the interpolated f-string. -/
def build_context_block (s : Session) : String :=
  let hist := qa_concat 1 (s.answers.drop (s.answers.length - 6))
  let opts := parse_options s
  let opts_txt :=
    if opts ≠ [] then nlJoin (opts.map (fun o => "- " ++ o)) else "(미입력)"
  pyStrip (dedent
    ("\n        [세션 시작 정보]\n        - 카테고리: " ++ s.category ++
     "\n        - 결정 유형: " ++ s.decision_type ++
     "\n        - 상황 설명: " ++ pyOr s.situation "(미입력)" ++
     "\n        - 원하는 목표: " ++ pyOr s.goal "(미입력)" ++
     "\n        - 고려 옵션(있다면): " ++ opts_txt ++
     "\n\n        [최근 Q/A]\n        " ++
     (if pyStrip hist ≠ "" then hist else "(아직 없음)") ++ "\n        "))

/-- Embeds `probing_instruction` (src/app.py:883). -/
def probing_instruction (last_q last_a : String) : String :=
  pyStrip (dedent
    ("\n        사용자의 답변이 너무 짧거나 모호합니다.\n        아래의 직전 질문과 답변을 바탕으로, 사용자가 구체화할 수 있도록 딱 1개의 추가 질문(Probe)을 만들어 주세요.\n\n        - 직전 질문: " ++
     last_q ++ "\n        - 직전 답변: " ++ last_a ++
     "\n\n        요구사항:\n        - \x27구체화\x27를 돕는 질문(예: 예시/상황/기준/이유/범위/기간/우선순위 중 하나를 더 묻기)\n        - 판단/추천/지시 금지\n        - 질문 1개만 출력\n        "))

/-- Embeds `reframe_instruction` (src/app.py:900). -/
def reframe_instruction (s : Session) (last_q last_a : String) : String :=
  pyStrip (dedent
    ("\n        사용자가 질문에 대해 \"잘 모르겠어요/감이 안 와요/어려워요\" 같은 반응을 보였습니다.\n        아래 정보를 참고해, 사용자의 상황에 맞게 질문을 더 쉽게 풀어 쓰거나(재프레이밍),\n        또는 더 답하기 쉬운 대체 질문 1개를 만들어 주세요.\n\n        [사용자 상황 설명]\n        " ++
     pyOr s.situation "(미입력)" ++ "\n\n        [직전 질문]\n        " ++ last_q ++
     "\n\n        [사용자 답변(난감 표현 포함)]\n        " ++ last_a ++
     "\n\n        요구사항:\n        - 질문 1개만 출력\n        - 정답/추천/지시/판단 금지\n        - “먼저 A를 하세요” 같은 단계 지시 금지\n        - 답하기 쉬운 형태로:\n          예) 선택지를 제공(둘 중 무엇에 더 가까운지), 예시 요구, 범위 좁히기(이번 주/오늘), 기준 1개만 묻기 등\n        "))

/-- Embeds `crosscheck_system_prompt` (src/app.py:926). -/
def crosscheck_system_prompt : String :=
  "당신은 \x27AI 결정 코칭 앱\x27의 논리 충돌 감지기입니다.\n사용자의 이전 답변들 사이에 \x27우선순위/기준/목표\x27가 서로 충돌하는지 점검하세요.\n중요: 추천/결론/정답/지시를 절대 하지 마세요. 질문을 만들 때도 강요/판단 금지.\n출력은 반드시 JSON만. (설명/코드블록 금지)\n"

/-- Embeds `crosscheck_user_prompt` (src/app.py:935): the last six main Q/A
pairs plus the JSON schema instructions (the doubled `\x7b\x7b` braces of the
f-string render as single braces). -/
def crosscheck_user_prompt (s : Session) (current_main_index : ℕ) : String :=
  let mains := s.answers.filter (fun x => x.kind = "main")
  let qa := qa_plain_concat 1 (mains.drop (mains.length - 6))
  pyStrip (dedent
    ("\n        아래는 사용자 답변 일부입니다. 답변들 사이에 논리적 충돌(기준/우선순위의 상충)이 있는지 판단하세요.\n        충돌이 있다면, 그 충돌을 사용자가 스스로 \x27정리\x27하도록 돕는 질문 1개를 제안하세요.\n        충돌이 없다면 has_conflict=false로 두세요.\n\n        [답변들]\n        " ++
     (if pyStrip qa ≠ "" then qa else "(답변 없음)") ++
     "\n\n        [출력 JSON 스키마]\n        \x7b\n          \"has_conflict\": true/false,\n          \"conflict_summary\": \"string (없으면 빈 문자열)\",\n          \"question\": \"string (has_conflict=true일 때만, 질문 1개)\"\n        \x7d\n\n        추가 규칙:\n        - question은 질문 1개만\n        - 판단/추천/지시/선택 강요 금지\n        - current_main_index=" ++
     toString current_main_index ++ "\n        "))

/-- Embeds `instruction_for_question` (src/app.py:1006): per-slot question
purposes, keyed by slot index, total and coach id. -/
def instruction_for_question (i n : ℕ) (coach_id : String) : String :=
  if i = 0 then "상황의 핵심을 더 구체화하는 질문 1개"
  else if i = 1 then "원하는 목표를 측정 가능한 형태로 정리하게 하는 질문 1개"
  else if coach_id = "action" then
    if i = n - 1 then
      "‘지금 앱을 끄고 나서 5분 안에 실행할 수 있는 가장 작은 행동’을 스스로 적게 만드는 질문 1개(Quick Win, 추천 금지)"
    else if i = 2 then
      "옵션/해야 할 일 3~6개를 펼치고 Top1~3 우선순위를 정리하게 하는 질문(효과/중요도/난이도 기준을 질문으로 제시)"
    else if 6 ≤ n ∧ i = 3 then
      "Top1을 ‘1년→이번 달→이번 주’로 쪼개 사용자가 계획을 적게 만드는 질문 1개(지시 금지)"
    else if (n = 5 ∧ i = 3) ∨ (6 ≤ n ∧ i = n - 2) then
      "프리모템(Pre-mortem) + If-Then 트리거 설계 질문 1개. 예: ‘2주 뒤 실패했다고 가정하면, 가장 그럴듯한 원인 3가지는?’ 그리고 각 원인에 대해 ‘만약 (If) ~ 상황이면 → (Then) ~ 행동’으로 대응을 적게 하기"
    else if 6 ≤ n ∧ i = 4 then
      "실행을 ‘언제’가 아니라 ‘If(어떤 상황) → Then(어떤 행동)’으로 설계하게 하는 질문 1개(트리거 2~3개)"
    else "다음 행동을 더 구체화(무엇을/얼마나/어떤 조건에서)하는 질문 1개"
  else if coach_id = "logic" then
    if 5 ≤ n ∧ i = n - 2 then "역발상/반대 상황 가정 질문 1개."
    else if i = 2 then "선택 기준(3~5)을 뽑게 하는 질문 1개"
    else if i = n - 1 then
      "마지막으로 선택 기준의 우선순위를 1~3위로 정리하게 하는 질문 1개(추천 금지)"
    else if i = n - 2 ∧ n < 5 then
      "불확실한 가정/추가로 확인할 정보 1~2개를 드러내는 질문 1개"
    else "옵션/정보/제약을 더 분리해 명료화하는 질문 1개"
  else if coach_id = "value" then
    if i = 2 then "지금 감정(2~3개)과 그 감정의 이유를 말하게 하는 질문 1개"
    else if i = 3 ∧ 5 ≤ n then "감정과 가치의 분리 질문 1개."
    else if i = n - 2 then "후회 최소화 관점(1년/5년 후)을 점검하게 하는 질문 1개"
    else if i = n - 1 then
      "마지막으로 ‘내 기준’을 한 문장으로 정리하게 하는 질문 1개(추천 금지)"
    else "가치 Top3(내게 중요한 것)와 내려놓을 것 1개를 정리하게 하는 질문 1개"
  else "사용자가 스스로 정리하도록 돕는 질문 1개"

/-- Embeds `fallback_question` (src/app.py:1054): the deterministic question
bank keyed by coach, slot index and total slots. -/
def fallback_question (coach_id : String) (i n : ℕ) : String :=
  if i = 0 then "지금 고민에서 ‘가장 핵심적인 쟁점’은 무엇인가요? (한 문장)"
  else if i = 1 then
    "이번 결정으로 얻고 싶은 목표를 ‘측정 가능하게’ 바꾸면 어떻게 표현할 수 있나요? (언제까지/어느 정도)"
  else if coach_id = "action" then
    if i = n - 1 then "앱을 끄고 나서 5분 안에 할 수 있는 ‘가장 작은 행동’은 무엇인가요?"
    else if i = 2 then
      "옵션/해야 할 일 3~6개를 적고, 효과/중요도/난이도를 고려했을 때 Top3는 무엇인가요?"
    else if (n = 5 ∧ i = 3) ∨ (6 ≤ n ∧ i = n - 2) then
      "2주 뒤 실패했다고 가정하면, 가장 그럴듯한 원인 3가지는 무엇이고 각각 ‘만약 ~이면 → ~한다’로 대응을 적어볼 수 있나요?"
    else if 6 ≤ n ∧ i = 3 then
      "Top1을 ‘1년 목표 → 이번 달 목표 → 이번 주 계획(3개)’로 적어보면 무엇인가요?"
    else if 6 ≤ n ∧ i = 4 then
      "실행을 ‘만약(If) ~ 상황이면 → 그러면(Then) ~ 행동’으로 트리거 2~3개를 만들어보면 무엇인가요?"
    else "다음 행동을 더 구체화하면(무엇을/얼마나/어떤 조건에서) 어떻게 적을 수 있나요?"
  else if coach_id = "logic" then
    if 5 ≤ n ∧ i = n - 2 then "만약 당신이 세운 기준이 완전히 틀렸다면 어떤 상황이 벌어질까요?"
    else if i = 2 then "이 선택을 평가할 기준 3~5개를 적어보면 무엇인가요?"
    else if i = n - 1 then "선택 기준의 우선순위를 1~3위로 정리하면 무엇인가요?"
    else if i = n - 2 ∧ n < 5 then "지금 결정을 어렵게 만드는 ‘불확실한 가정/정보’는 무엇인가요?"
    else "옵션/제약/정보를 분리해서 지금 부족한 정보는 무엇인지 적어볼까요?"
  else if i = 2 then "지금 감정을 2~3개 단어로 적고, 각 감정이 생긴 이유를 한 줄씩 써볼까요?"
  else if i = 3 ∧ 5 ≤ n then
    "그 감정은 ‘지금 당장의 편안함’ 때문인가요, ‘미래의 나를 위한 가치’ 때문인가요?"
  else if i = n - 2 then "1년/5년 뒤의 내가 지금의 나에게 뭐라고 말해줄 것 같나요?"
  else "이 고민에서 가장 중요한 가치 Top3는 무엇인가요?"

/-! ### Conflict detector and question sequencer -/

/-- Sorted insertion without duplicates. -/
def insertSortedNat (i : ℕ) : List ℕ → List ℕ
  | [] => [i]
  | x :: xs =>
    if i = x then x :: xs
    else if i < x then i :: x :: xs
    else x :: insertSortedNat i xs

/-- Python `sorted(set(l))` for naturals. -/
def sortNats (l : List ℕ) : List ℕ :=
  l.foldl (fun acc x => insertSortedNat x acc) []

/-- Fields of a parsed JSON object. -/
def objFields : JVal → List (String × JVal)
  | .jobj fs => fs
  | _ => []

/-- Python `data.get(k, d)`. -/
def jgetD (fs : List (String × JVal)) (k : String) (d : JVal) : JVal :=
  (jget fs k).getD d

/-- Embeds `try_logic_crosscheck_question` (src/app.py:966).  Returns the
conflict question (if any) together with the updated session and remaining
oracle.  Note the source adds `main_index` to `crosscheck_used_for` only
after `safe_json_parse` returns a truthy (non-empty) object: early returns
(slot already used, fewer than two main answers, collaborator failure, JSON
parse failure, and the `if not data:` guard catching a parsed-but-empty
object) leave the used list unchanged. -/
def try_logic_crosscheck_question (s : Session) (main_index : ℕ) (o : Oracle) :
    Option String × Session × Oracle :=
  if main_index ∈ s.crosscheck_used_for then (none, s, o)
  else if (s.answers.filter (fun x => x.kind = "main")).length < 2 then (none, s, o)
  else
    let co := call_openai_text crosscheck_system_prompt
      (crosscheck_user_prompt s main_index) (1/5) o
    if isBlank co.1 then (none, s, co.2)
    else
      match safe_json_parse (co.1.getD "") with
      | none => (none, s, co.2)
      | some data =>
        if !(pyTruthy data) then (none, s, co.2)
        else
          let fs := objFields data
          let has_conflict := pyTruthy (jgetD fs "has_conflict" (.jbool false))
          let v := jgetD fs "question" (.jstr "")
          let q := normalize (if pyTruthy v then pyStr v else "")
          let s1 :=
            { s with crosscheck_used_for := sortNats (main_index :: s.crosscheck_used_for) }
          if has_conflict ∧ q ≠ "" then (some q, s1, co.2) else (none, s1, co.2)

/-- User prompt of `generate_question` (src/app.py:1104-1123); the nonce is
the `random.randint` environment input. -/
def question_prompt (i n : ℕ) (s : Session) (nonce : ℕ) : String :=
  let prev_qs := s.questions
  let prev_txt :=
    if prev_qs ≠ [] then
      nlJoin ((prev_qs.drop (prev_qs.length - 6)).map (fun q => "- " ++ q))
    else "(없음)"
  pyStrip (dedent
    ("\n            [최근 질문 목록]\n            " ++ prev_txt ++
     "\n\n            " ++ build_context_block s ++
     "\n\n            [이번 질문 목적]\n            " ++
     instruction_for_question i n (coach_by_id s.coach_id) ++
     "\n\n            규칙:\n            - 결론/추천/정답/지시 금지\n            - 질문 1개만 출력\n            - 이전 질문과 너무 비슷하면 피하기\n\n            (nonce=" ++
     toString nonce ++ ")\n            "))

/-- Embeds `generate_question` (src/app.py:1093): conflict question first
(if dissimilar from every previous question), then up to two generation
attempts checked for similarity, then the deterministic fallback.
`nonce1`/`nonce2` are the `random.randint` environment inputs. -/
def generate_question (i n : ℕ) (nonce1 nonce2 : ℕ) (s : Session) (o : Oracle) :
    String × Session × Oracle :=
  let coach := coach_by_id s.coach_id
  let system := system_prompt_for_questions coach
  let prev_qs := s.questions
  let cross := try_logic_crosscheck_question s i o
  let s1 := cross.2.1
  let gen : Oracle → String × Session × Oracle := fun o1 =>
    let c1 := call_openai_text system (question_prompt i n s nonce1) (7/10) o1
    if isBlank c1.1 then (fallback_question coach i n, s1, c1.2)
    else
      let q1 := normalize (c1.1.getD "")
      if !(prev_qs.any (fun pq => is_similar q1 pq)) then (q1, s1, c1.2)
      else
        let c2 := call_openai_text system (question_prompt i n s nonce2) (17/20) c1.2
        if isBlank c2.1 then (fallback_question coach i n, s1, c2.2)
        else
          let q2 := normalize (c2.1.getD "")
          if !(prev_qs.any (fun pq => is_similar q2 pq)) then (q2, s1, c2.2)
          else (fallback_question coach i n, s1, c2.2)
  match cross.1 with
  | some cq =>
    if cq ≠ "" ∧ !(prev_qs.any (fun pq => is_similar cq pq)) then (cq, s1, cross.2.2)
    else gen cross.2.2
  | none => gen cross.2.2

/-- Loop of `ensure_question` (src/app.py:1146), fuelled; each iteration
appends exactly one question, so fuel `index + 1` always suffices. -/
def ensure_question_loop : ℕ → ℕ → ℕ → Session → Oracle → Session × Oracle
  | 0, _, _, s, o => (s, o)
  | fuel + 1, index, total, s, o =>
    if s.questions.length ≤ index then
      let g := generate_question s.questions.length total 0 0 s o
      ensure_question_loop fuel index total
        { g.2.1 with questions := g.2.1.questions ++ [g.1] } g.2.2
    else (s, o)

/-- Embeds `ensure_question` (src/app.py:1146): generate and append
questions until slot `index` has one. -/
def ensure_question (index total : ℕ) (s : Session) (o : Oracle) : Session × Oracle :=
  ensure_question_loop (index + 1) index total s o

/-- Embeds `generate_probe_question` (src/app.py:1154). -/
def generate_probe_question (s : Session) (last_q last_a : String) (o : Oracle) :
    String × Oracle :=
  let c := call_openai_text (system_prompt_for_questions (coach_by_id s.coach_id))
    (probing_instruction last_q last_a) (3/5) o
  if isBlank c.1 then
    ("방금 답변에서 ‘예시 1개’만 들어서 조금 더 자세히 설명해줄 수 있을까요?", c.2)
  else (normalize (c.1.getD ""), c.2)

/-- Embeds `generate_reframe_question` (src/app.py:1164). -/
def generate_reframe_question (s : Session) (last_q last_a : String) (o : Oracle) :
    String × Oracle :=
  let c := call_openai_text (system_prompt_for_questions (coach_by_id s.coach_id))
    (reframe_instruction s last_q last_a) (11/20) o
  if isBlank c.1 then
    ("이 질문이 어렵다면, ‘이번 상황에서 가장 신경 쓰이는 한 가지’만 고르면 무엇인가요?", c.2)
  else (normalize (c.1.getD ""), c.2)

/-! ### The submit / back turn handlers (render_questions, handle_back) -/

/-- Embeds the answer-submission path of `render_questions`
(src/app.py:2165-2253): clamp the index, make sure the slot has a question,
store the answer, then branch on probe kind / confused / too-short /
advance.  `st.rerun()` aborts the handler, so each branch returns
immediately. -/
def submit_answer (s : Session) (ans : String) (o : Oracle) : Session × Oracle :=
  let nq := s.num_questions
  let q_idx := min s.q_index (nq - 1)
  let es := ensure_question q_idx nq s o
  match es.1, es.2 with
  | s, o =>
    let main_q := s.questions.getD q_idx ""
    let kindIsProbe : Bool := s.probe_active && decide (s.probe_for_index = some q_idx)
    let show_q := if kindIsProbe then s.probe_question else main_q
    let a := pyStrip ans
    if a = "" then (s, o)
    else if kindIsProbe then
      let s := add_answer s show_q a "probe" q_idx (pyOr s.probe_mode "")
      ({ s with probe_active := false, probe_question := "", probe_for_index := none,
                probe_mode := "", q_index := min (q_idx + 1) (nq - 1) }, o)
    else
      let s := add_answer s show_q a "main" q_idx ""
      if is_confused_answer a then
        let g := generate_reframe_question s show_q a o
        ({ s with probe_active := true, probe_question := g.1,
                  probe_for_index := some q_idx, probe_mode := "reframe" }, g.2)
      else if is_too_short_answer a then
        let g := generate_probe_question s show_q a o
        ({ s with probe_active := true, probe_question := g.1,
                  probe_for_index := some q_idx, probe_mode := "short" }, g.2)
      else if nq ≤ main_answer_count s then
        ({ s with page := "report", q_index := nq - 1 }, o)
      else ({ s with q_index := min (q_idx + 1) (nq - 1) }, o)

/-- Embeds `handle_back` (src/app.py:1835): pop the most recent record,
clear the probe state, rewind to the main index of the popped record
(`max(0, mi)` is the identity on naturals). -/
def handle_back (s : Session) : Session :=
  match s.answers.getLast? with
  | none =>
    { s with q_index := s.q_index - 1, probe_active := false, probe_question := "",
             probe_for_index := none, probe_mode := "" }
  | some last =>
    if last.kind = "probe" then
      { s with answers := s.answers.dropLast, probe_active := false,
               probe_question := "", probe_for_index := none, probe_mode := "",
               q_index := last.main_index }
    else
      { s with answers := s.answers.dropLast, probe_active := false,
               probe_question := "", probe_for_index := none, probe_mode := "",
               q_index := last.main_index }

/-- User-triggered turns on the questions page. -/
inductive TurnEvent where
  | submit : String → TurnEvent
  | back : TurnEvent

/-- One turn of the questions page: rendering always runs
`ensure_question` first (src/app.py:2180), then the chosen event handler. -/
def render_turn (s : Session) (o : Oracle) : TurnEvent → Session × Oracle
  | .submit ans => submit_answer s ans o
  | .back =>
    let es := ensure_question (min s.q_index (s.num_questions - 1)) s.num_questions s o
    (handle_back es.1, es.2)

/-- Embeds the question-flow reset of `start_session`
(src/app.py:518-548): the metadata fields hold whatever the user chose in
the onboarding UI; the flow fields start empty. -/
def start_session (nq : ℕ) (coach_id category decision_type situation goal options : String) :
    Session :=
  { category := category, decision_type := decision_type, coach_id := coach_id,
    goal := goal, options := options, situation := situation,
    num_questions := nq, q_index := 0, questions := [], answers := [],
    probe_active := false, probe_question := "", probe_for_index := none,
    probe_mode := "", crosscheck_used_for := [], page := "questions" }

/-- Sessions reachable through the questions page: a fresh session (the UI
slider bounds `num_questions` to 2..10) followed by any sequence of submit
and back turns under any collaborator behaviour. -/
inductive Reachable : Session → Prop where
  | init (nq : ℕ) (cid cat dt sit goal opts : String) (h2 : 2 ≤ nq) (h10 : nq ≤ 10) :
      Reachable (start_session nq cid cat dt sit goal opts)
  | turn (s : Session) (o : Oracle) (e : TurnEvent) (h : Reachable s) :
      Reachable (render_turn s o e).1

/-! ### Report generator and validator (src/app.py:1177-1394) -/

/-- Python `\w` word characters (ASCII part plus the Hangul syllables the
source patterns name). -/
def isPyWordCh (c : Char) : Bool :=
  c.isAlphanum || c = '_' || (0xAC00 ≤ c.toNat && c.toNat ≤ 0xD7A3)

/-- Matches `X를\s*선택` at the head of `l` for the given letter. -/
def matchSelectAt (l : List Char) (letter : Char) : Bool :=
  match l with
  | [] => false
  | c :: rest =>
    c = letter && "를".data.isPrefixOf rest &&
      "선택".data.isPrefixOf ((rest.drop 1).dropWhile isPyWs)

/-- Scan continuation of `containsBoundSelect`, carrying the previous
character for the `\b` test. -/
def boundSelAux : Char → List Char → Char → Bool
  | _, [], _ => false
  | prev, c :: rest, letter =>
    (if !(isPyWordCh prev) then matchSelectAt (c :: rest) letter else false) ||
      boundSelAux c rest letter

/-- `re.search` of `\bX를\s*선택`: the letter must sit at the string start or
after a non-word character. -/
def containsBoundSelect (l : List Char) (letter : Char) : Bool :=
  matchSelectAt l letter ||
    (match l with
     | [] => false
     | c :: rest => boundSelAux c rest letter)

/-- Embeds `contains_forbidden_recommendation` with the
`FORBIDDEN_RECOMMEND_PATTERNS` list (src/app.py:1178-1199).  The leading
`~?` of three patterns is an optional literal tilde, so those patterns match
exactly when their mandatory tail occurs; `정답(은|:)` and `결론(은|:)` are the
two-literal disjunctions. -/
def contains_forbidden_recommendation (text : String) : Bool :=
  pyIn "추천합니다" text || pyIn "추천드" text ||
  pyIn "하는 것이 좋" text || pyIn "하는 게 좋" text || pyIn "하시면 좋" text ||
  pyIn "해야 합니다" text || pyIn "하시길" text || pyIn "하는 게 낫" text ||
  pyIn "정답은" text || pyIn "정답:" text ||
  pyIn "결론은" text || pyIn "결론:" text ||
  containsBoundSelect text.data 'A' || containsBoundSelect text.data 'B'

/-- Embeds `report_schema_hint` (src/app.py:1202): shared rules plus the
persona-specific JSON schema (all lines are flush left, so the dedent of the
source is the identity; the final strip is kept). -/
def report_schema_hint (coach_id : String) : String :=
  let base :=
    "\n반드시 JSON만 출력하세요(코드블록/설명 금지).\n절대 추천/결론/정답/지시를 하지 마세요.\ncoaching_message는 반드시 \"거울 비추기(Mirroring)\" 화법만 사용하세요.\n금지 표현: \"추천합니다\", \"좋겠습니다\", \"해야 합니다\", \"하자\", \"정답\", \"결론\", \"A를 선택\".\n"
  let common_extra :=
    "\n추가 필드(원칙 유지):\n- \"info_check_questions\": [\"string\", ...]  # ‘추가로 확인하면’ 결정을 가볍게 하는 질문 1~3개(질문 형태만)\n"
  if coach_id = "action" then
    pyStrip (dedent (base ++ common_extra ++
      "\nJSON 스키마:\n\x7b\n  \"summary\": \x7b\n    \"core_issue\": \"string\",\n    \"goal\": \"string\",\n    \"constraints\": [\"string\"],\n    \"options_mentioned\": [\"string\"]\n  \x7d,\n  \"criteria\": [\n    \x7b\"name\":\"string\",\"priority\":1-5,\"why\":\"string\"\x7d\n  ],\n  \"plan_visualization\": \x7b\n    \"year\": \"string\",\n    \"month\": \"string\",\n    \"week\": [\"string\",\"string\",\"string\"]\n  \x7d,\n  \"weekly_table\": \x7b\n    \"Mon\": [\"string\"], \"Tue\": [\"string\"], \"Wed\": [\"string\"], \"Thu\": [\"string\"],\n    \"Fri\": [\"string\"], \"Sat\": [\"string\"], \"Sun\": [\"string\"]\n  \x7d,\n  \"info_check_questions\": [\"string\"],\n  \"coaching_message\": [\"string\",\"string\"],\n  \"next_self_question\": \"string\"\n\x7d\n"))
  else if coach_id = "logic" then
    pyStrip (dedent (base ++ common_extra ++
      "\nJSON 스키마:\n\x7b\n  \"summary\": \x7b\n    \"core_issue\":\"string\",\n    \"goal\":\"string\",\n    \"constraints\":[\"string\"],\n    \"options_mentioned\":[\"string\"]\n  \x7d,\n  \"criteria\": [\x7b\"name\":\"string\",\"priority\":1-5,\"why\":\"string\"\x7d],\n  \"key_points\": \x7b\"uncertainties\":[\"string\"], \"tradeoffs\":[\"string\"]\x7d,\n  \"info_check_questions\": [\"string\"],\n  \"coaching_message\":[\"string\",\"string\"],\n  \"next_self_question\":\"string\"\n\x7d\n"))
  else
    pyStrip (dedent (base ++ common_extra ++
      "\nJSON 스키마:\n\x7b\n  \"summary\": \x7b\n    \"core_issue\":\"string\",\n    \"goal\":\"string\",\n    \"constraints\":[\"string\"],\n    \"options_mentioned\":[\"string\"]\n  \x7d,\n  \"criteria\": [\x7b\"name\":\"string\",\"priority\":1-5,\"why\":\"string\"\x7d],\n  \"emotions_values\": \x7b\"emotions\":[\"string\",\"string\"], \"top_values\":[\"string\",\"string\",\"string\"]\x7d,\n  \"info_check_questions\": [\"string\"],\n  \"coaching_message\":[\"string\",\"string\"],\n  \"next_self_question\":\"string\"\n\x7d\n"))

/-- Embeds `system_prompt_for_report` (src/app.py:1291). -/
def system_prompt_for_report : String :=
  "당신은 \x27AI 결정 코칭 앱\x27의 최종 요약 생성기입니다.\n절대 추천/결론/정답/지시를 제시하지 마세요.\n오직 사용자의 답변을 바탕으로 핵심/기준/긴장/불확실성을 정리(거울 비추기)하세요.\ncoaching_message는 반드시 거울 비추기 문장만.\n출력은 반드시 JSON만.\n"

/-- Embeds `build_qa_text_for_report` (src/app.py:1301): the WHOLE answers
list, enumerated from 1, in the tagged format. -/
def build_qa_text_for_report (s : Session) : String :=
  qa_concat 1 s.answers

/-- Python f-string rendering of a list of strings (`repr` with single
quotes), used for the options list in the report prompt. -/
def pyReprStrList : List String → String
  | l => "[" ++ reprElems l ++ "]"
where
  /-- Comma-separated quoted elements. -/
  reprElems : List String → String
    | [] => ""
    | [x] => "\x27" ++ x ++ "\x27"
    | x :: y :: rest => "\x27" ++ x ++ "\x27, " ++ reprElems (y :: rest)

/-- First `n` characters (Python slice `[:n]`). -/
def pyTake (n : ℕ) (s : String) : String := String.mk (s.data.take n)

/-- Embeds `fallback_report_json` (src/app.py:1309): the deterministic
skeleton report built from the locally available session fields, with the
persona-specific block appended. -/
def fallback_report_json (s : Session) : JVal :=
  let coach := coach_by_id s.coach_id
  let opts := parse_options s
  let base : List (String × JVal) :=
    [("summary", .jobj
        [("core_issue", .jstr (pyOr (pyTake 180 (normalize s.situation))
            "핵심 고민이 요약되지 않았습니다.")),
         ("goal", .jstr (pyOr (pyTake 180 (normalize s.goal))
            "목표가 명확히 적히지 않았습니다.")),
         ("constraints", .jarr []),
         ("options_mentioned", .jarr (opts.map (fun o => .jstr o)))]),
     ("criteria", .jarr []),
     ("info_check_questions", .jarr
        [.jstr "이 결정을 더 가볍게 만들기 위해, 지금 ‘확인되지 않은 사실/가정’은 무엇인가요?",
         .jstr "최악의 경우를 상상했을 때, 실제로 감당 가능한 비용/손실의 범위는 어느 정도인가요?"]),
     ("coaching_message", .jarr
        [.jstr "지금은 ‘정리’가 필요하다는 느낌과, 동시에 ‘확신이 부족하다’는 느낌이 함께 있는 상태처럼 보입니다.",
         .jstr "당신에게 중요한 기준이 무엇인지가 선명해질수록, 선택이 덜 무겁게 느껴질 가능성이 있어요."]),
     ("next_self_question", .jstr "내가 지금 가장 놓치기 싫은 기준 1개는 무엇이고, 왜 그것이 중요한가요?")]
  if coach = "logic" then
    .jobj (base ++ [("key_points", .jobj
      [("uncertainties", .jarr []), ("tradeoffs", .jarr [])])])
  else if coach = "action" then
    .jobj (base ++
      [("plan_visualization", .jobj
          [("year", .jstr ""), ("month", .jstr ""), ("week", .jarr [])]),
       ("weekly_table", .jobj
          [("Mon", .jarr []), ("Tue", .jarr []), ("Wed", .jarr []),
           ("Thu", .jarr []), ("Fri", .jarr []), ("Sat", .jarr []),
           ("Sun", .jarr [])])])
  else
    .jobj (base ++ [("emotions_values", .jobj
      [("emotions", .jarr []), ("top_values", .jarr [])])])

/-- User prompt of `generate_final_report_json` (src/app.py:1347-1367):
schema hint, session metadata, the full Q/A transcript, closing rules. -/
def report_user_prompt (s : Session) : String :=
  let opts := parse_options s
  pyStrip (dedent
    ("\n" ++ report_schema_hint (coach_by_id s.coach_id) ++
     "\n\n[세션 시작 정보]\n- 카테고리: " ++ s.category ++
     "\n- 결정 유형: " ++ s.decision_type ++
     "\n- 상황 설명: " ++ s.situation ++
     "\n- 원하는 목표: " ++ s.goal ++
     "\n- 옵션(있다면): " ++ (if opts ≠ [] then pyReprStrList opts else "(없음)") ++
     "\n\n[Q/A]\n" ++ build_qa_text_for_report s ++
     "\n\n중요:\n- 추천/결론/정답/지시 금지\n- coaching_message는 거울 비추기만\n- 사용자가 말하지 않은 계획을 ‘지어내지’ 마세요\n- info_check_questions는 질문 형태로 1~3개만\n"))

/-- Stricter warning appended to the report prompt for the single
regeneration attempt (src/app.py:1384). -/
def report_strict_warning : String :=
  "\n\n[경고] 이전 출력에 추천/지시 표현이 포함되었습니다. 절대 포함하지 말고 거울 비추기 문장만 사용하세요."

/-- Result of report generation.  `sent_user_prompts` records the user
prompt of each collaborator call in order (instrumentation for the
bounded-retry theorems; the source logs the same information to its debug
list).  The human-readable error component of the source is not modelled:
nothing branches on it. -/
structure ReportResult where
  data : Option JVal
  raw : Option String
  rest : Oracle
  sent_user_prompts : List String
deriving Repr

/-- Embeds `generate_final_report_json` (src/app.py:1340): request a report;
on no text or unparsable JSON return the deterministic fallback; if the
parsed draft serializes with a forbidden phrase, re-request exactly once
under the stricter instruction and keep the first draft unless the second
parses clean. -/
def generate_final_report_json (s : Session) (o : Oracle) : ReportResult :=
  let system := system_prompt_for_report
  let user := report_user_prompt s
  let c1 := call_openai_text system user (1/4) o
  if isBlank c1.1 then
    { data := some (fallback_report_json s), raw := none, rest := c1.2,
      sent_user_prompts := [user] }
  else
    let text := c1.1.getD ""
    match safe_json_parse text with
    | none =>
      { data := some (fallback_report_json s), raw := some text, rest := c1.2,
        sent_user_prompts := [user] }
    | some data =>
      if contains_forbidden_recommendation (json_dumps data) then
        let stricter_user := user ++ report_strict_warning
        let c2 := call_openai_text system stricter_user (1/10) c1.2
        if isBlank c2.1 then
          { data := some data, raw := some text, rest := c2.2,
            sent_user_prompts := [user, stricter_user] }
        else
          match safe_json_parse (c2.1.getD "") with
          | some data2 =>
            if !(contains_forbidden_recommendation (json_dumps data2)) then
              { data := some data2, raw := some (c2.1.getD ""), rest := c2.2,
                sent_user_prompts := [user, stricter_user] }
            else
              { data := some data, raw := some text, rest := c2.2,
                sent_user_prompts := [user, stricter_user] }
          | none =>
            { data := some data, raw := some text, rest := c2.2,
              sent_user_prompts := [user, stricter_user] }
      else
        { data := some data, raw := some text, rest := c1.2,
          sent_user_prompts := [user] }

/-- Checks, scanning left to right with the already-seen prefix, that every
probe/reframe record is preceded by a main-kind record for the same slot
index. -/
def probes_ok (seen : List AnswerRecord) : List AnswerRecord → Bool
  | [] => true
  | r :: rest =>
    (if r.kind = "probe" then
      seen.any (fun r0 => r0.kind = "main" && r0.main_index == r.main_index)
    else true) &&
    probes_ok (seen ++ [r]) rest

/-! ### Concrete interview scenarios used by the counterexamples

Each trace starts from a fresh session and applies `render_turn` with an
explicit collaborator oracle, so every final state is reachable. -/

/-- Fresh three-slot session with the structured coach. -/
def sessionA : Session :=
  start_session 3 "logic" "진로 고민" "여러 옵션 중 선택" "이직을 고민 중입니다" "후회 없는 선택" ""

/-- Slot 0 gets a confused answer (collaborator down → fallback question and
fallback reframe). -/
def backT1 : Session × Oracle := render_turn sessionA [] (.submit "모르겠어요")

/-- The reframe probe is answered, advancing to slot 1. -/
def backT2 : Session × Oracle :=
  render_turn backT1.1 [] (.submit "그래도 생각해 보면 안정이 더 중요합니다")

/-- Go back: pops only the probe record, rewinding to slot 0. -/
def backT3 : Session × Oracle := render_turn backT2.1 [] .back

/-- Slot 0 is answered again — a second main record for slot 0. -/
def backT4 : Session × Oracle :=
  render_turn backT3.1 [] (.submit "안정성과 성장 중 안정이 저에게 더 중요합니다")

/-- Collaborator question for slot 0 of the duplicate-question trace. -/
def dupQ0 : String := "어떤 제약이 가장 크게 느껴지나요?"

/-- Slot 0: the collaborator returns `dupQ0`; the answer is accepted. -/
def dupT1 : Session × Oracle :=
  render_turn sessionA [some dupQ0] (.submit "안정성이 저에게는 가장 중요합니다")

/-- Slot 1: the collaborator happens to return exactly the text of the
deterministic fallback for slot 2; it is dissimilar from `dupQ0`, so it is
emitted. -/
def dupT2 : Session × Oracle :=
  render_turn dupT1.1 [some (fallback_question "logic" 2 3)]
    (.submit "6개월 안에 이직 여부를 정하는 것이 목표입니다")

/-- Slot 2: the collaborator fails, so the sequencer emits the slot-2
fallback — the very text already asked at slot 1. -/
def dupT3 : Session × Oracle :=
  render_turn dupT2.1 [] (.submit "네 알겠습니다 충분히 고민해 보겠습니다")

/-- Fresh five-slot session for the transcript-size scenario. -/
def sessionB : Session :=
  start_session 5 "logic" "진로 고민" "여러 옵션 중 선택" "이직을 고민 중입니다" "후회 없는 선택" ""

/-- Five accepted main answers in a row (collaborator down throughout). -/
def longT1 : Session × Oracle :=
  render_turn sessionB [] (.submit "첫답변고유표식이 들어간 첫 번째 답변입니다")

/-- Second accepted answer. -/
def longT2 : Session × Oracle :=
  render_turn longT1.1 [] (.submit "두 번째 답변은 연봉과 성장 가능성입니다")

/-- Third accepted answer. -/
def longT3 : Session × Oracle :=
  render_turn longT2.1 [] (.submit "세 번째 답변은 생활의 안정성입니다")

/-- Fourth accepted answer. -/
def longT4 : Session × Oracle :=
  render_turn longT3.1 [] (.submit "네 번째 답변은 가족의 의견입니다")

/-- Fifth accepted answer; the session moves to the report page. -/
def longT5 : Session × Oracle :=
  render_turn longT4.1 [] (.submit "다섯 번째 답변은 장기적인 목표입니다")

/-! ### Theorems -/

/-- The natural-number threshold test inside `is_similar` is exactly the
`token_overlap(a, b) >= 0.75` comparison of the source. -/
theorem token_overlap_threshold_iff (a b : String) :
    (3 * max 1 (min (toks a).card (toks b).card) ≤ 4 * (toks a ∩ toks b).card) ↔
      (3 : ℚ) / 4 ≤ token_overlap a b := by
  unfold token_overlap
  by_cases h : toks a = ∅ ∨ toks b = ∅
  · rw [if_pos h]
    have hz : (toks a ∩ toks b).card = 0 := by
      rcases h with h | h <;> simp [h]
    constructor
    · intro hle
      exfalso
      have h1 : (1 : ℕ) ≤ max 1 (min (toks a).card (toks b).card) := le_max_left _ _
      omega
    · intro hle
      exfalso
      norm_num at hle
  · rw [if_neg h]
    push_neg at h
    have hd : (0 : ℚ) < ((max 1 (min (toks a).card (toks b).card) : ℕ) : ℚ) := by
      have h1 : (1 : ℕ) ≤ max 1 (min (toks a).card (toks b).card) := le_max_left _ _
      exact_mod_cast Nat.lt_of_lt_of_le Nat.zero_lt_one h1
    rw [div_le_div_iff₀ (by norm_num) hd]
    constructor
    · intro h'
      have h'' : (3 * max 1 (min (toks a).card (toks b).card) : ℚ) ≤
          (4 * (toks a ∩ toks b).card : ℚ) := by exact_mod_cast h'
      push_cast at h'' ⊢
      linarith
    · intro h'
      have h'' : (3 * max 1 (min (toks a).card (toks b).card) : ℚ) ≤
          (4 * (toks a ∩ toks b).card : ℚ) := by push_cast; push_cast at h'; linarith
      exact_mod_cast h''

/-- C10: `token_overlap` always returns an exact rational in the closed
interval `[0, 1]`; it is `0` whenever either token set is empty, and the
intersection size never exceeds the denominator
`max 1 (min |toks a| |toks b|)`. -/
theorem token_overlap_bounded (a b : String) :
    0 ≤ token_overlap a b ∧ token_overlap a b ≤ 1 ∧
    ((toks a = ∅ ∨ toks b = ∅) → token_overlap a b = 0) ∧
    (toks a ∩ toks b).card ≤ max 1 (min (toks a).card (toks b).card) := by
  have hinter : (toks a ∩ toks b).card ≤ max 1 (min (toks a).card (toks b).card) := by
    have h1 : (toks a ∩ toks b).card ≤ (toks a).card :=
      Finset.card_le_card Finset.inter_subset_left
    have h2 : (toks a ∩ toks b).card ≤ (toks b).card :=
      Finset.card_le_card Finset.inter_subset_right
    exact le_trans (le_min h1 h2) (le_max_right _ _)
  have hdpos : (0 : ℚ) < ((max 1 (min (toks a).card (toks b).card) : ℕ) : ℚ) := by
    have h1 : (1 : ℕ) ≤ max 1 (min (toks a).card (toks b).card) := le_max_left _ _
    exact_mod_cast Nat.lt_of_lt_of_le Nat.zero_lt_one h1
  refine ⟨?_, ?_, ?_, hinter⟩
  · unfold token_overlap
    split
    · exact le_refl 0
    · exact div_nonneg (Nat.cast_nonneg _) (le_of_lt hdpos)
  · unfold token_overlap
    split
    · norm_num
    · rw [div_le_one hdpos]
      exact_mod_cast hinter
  · intro h
    unfold token_overlap
    rw [if_pos h]

/-- C10 witness: the bounds evaluated at the concrete pair `("ab cd", "")`,
discharging the empty-token-set hypothesis. -/
theorem token_overlap_bounded_witness : token_overlap "ab cd" "" = 0 :=
  (token_overlap_bounded "ab cd" "").2.2.1 (Or.inr (by decide))

/-- C4 counterexample: the answer `"어렵1,2,3"` contains the confusion keyword
`어렵` and exhibits two information-density signals (a digit and two list
separators), yet `is_confused_answer` still returns `true`, because the
answer is also below the length threshold.  This falsifies both halves of
the claim (fires with ≥ 2 signals; does not stay off on keyword + ≥ 2
signals). -/
theorem is_confused_counterexample :
    has_confused_keyword (pyStrip "어렵1,2,3") = true ∧
    2 ≤ density_signals (normalize (pyStrip "어렵1,2,3")) ∧
    is_confused_answer "어렵1,2,3" = true := by decide

/-- C4 amended: `is_confused_answer` returns `true` only when the stripped
answer has a confusion keyword and is either too short or shows fewer than
two density signals; and it returns `false` whenever the stripped answer is
not too short and shows at least two density signals. -/
theorem is_confused_only_on_poor_info (ans : String) :
    (is_confused_answer ans = true →
      has_confused_keyword (pyStrip ans) = true ∧
        (is_too_short_answer (pyStrip ans) = true ∨
          density_signals (normalize (pyStrip ans)) < 2)) ∧
    (is_too_short_answer (pyStrip ans) = false →
      2 ≤ density_signals (normalize (pyStrip ans)) →
      is_confused_answer ans = false) := by
  constructor
  · intro h
    unfold is_confused_answer at h
    split_ifs at h with h1 h2 h3 h4
    · exact ⟨by simpa using h2, Or.inl h3⟩
    · refine ⟨by simpa using h2, Or.inr ?_⟩
      have hm : has_meaningful_content (pyStrip ans) = false := by
        simpa using h4
      unfold has_meaningful_content at hm
      split_ifs at hm with hn
      · rw [hn]; decide
      · simpa using of_decide_eq_false hm
  · intro hshort hdense
    unfold is_confused_answer
    split_ifs with h1 h2 h3 h4
    · rfl
    · rfl
    · rw [h3] at hshort; exact absurd hshort (by simp)
    · exfalso
      have hm : has_meaningful_content (pyStrip ans) = true := by
        unfold has_meaningful_content
        split_ifs with hn
        · rw [hn] at hdense; exact absurd hdense (by decide)
        · exact decide_eq_true hdense
      rw [hm] at h4
      exact absurd h4 (by simp)
    · rfl

/-- C4 amended witness: a keyword-bearing but information-dense answer
(digit plus three list separators, length above the probing threshold) is
not classified as confused. -/
theorem is_confused_only_on_poor_info_witness :
    is_confused_answer "기준이 3개 있지만 어렵네요, 비용, 시간, 성장" = false :=
  (is_confused_only_on_poor_info "기준이 3개 있지만 어렵네요, 비용, 시간, 성장").2
    (by decide) (by decide)

/-- C9 counterexample: on the empty answer (the `(ans or "")` guard maps
`None` to `""`), `is_too_short_answer` returns `true`, not `false` as the
claim states — an empty answer is below `MIN_ANSWER_CHARS`. -/
theorem quality_predicates_empty_counterexample :
    is_too_short_answer "" = true := by decide

/-- C9 amended: both predicates are total Lean functions of the answer string
alone (purity and never-raising are inherent to the embedding); on empty (or
`None`, mapped to `""` by the `or` guard) input `is_confused_answer` returns
`false` via its explicit guard, while `is_too_short_answer` returns `true`
because the empty answer is below the length minimum. -/
theorem quality_predicates_on_empty :
    is_confused_answer "" = false ∧ is_too_short_answer "" = true := by decide

/-- Reachability of the go-back scenario (helper). -/
theorem backT4_reachable : Reachable backT4.1 :=
  Reachable.turn backT3.1 [] (.submit "안정성과 성장 중 안정이 저에게 더 중요합니다")
    (Reachable.turn backT2.1 [] .back
      (Reachable.turn backT1.1 [] (.submit "그래도 생각해 보면 안정이 더 중요합니다")
        (Reachable.turn sessionA [] (.submit "모르겠어요")
          (Reachable.init 3 "logic" "진로 고민" "여러 옵션 중 선택" "이직을 고민 중입니다"
            "후회 없는 선택" "" (by norm_num) (by norm_num)))))

/-- C3 counterexample: in the reachable go-back scenario (confused answer at
slot 0, reframe answered, one go-back, slot 0 answered again) slot 0 ends up
holding TWO main-kind answer records, refuting both "exactly one accepted
main AnswerRecord per slot" and "no slot ever holds two main-kind
AnswerRecords"; moreover the confused main answer was recorded before (not
after) its reframe record. -/
theorem slot_holds_two_main_records :
    Reachable backT4.1 ∧
    (backT4.1.answers.filter (fun r => r.kind = "main" && r.main_index == 0)).length = 2 :=
  ⟨backT4_reachable, by decide⟩

/-- Reachability of the duplicate-question scenario up to slot 1 (helper). -/
theorem dupT2_reachable : Reachable dupT2.1 :=
  Reachable.turn dupT1.1 [some (fallback_question "logic" 2 3)]
    (.submit "6개월 안에 이직 여부를 정하는 것이 목표입니다")
    (Reachable.turn sessionA [some dupQ0] (.submit "안정성이 저에게는 가장 중요합니다")
      (Reachable.init 3 "logic" "진로 고민" "여러 옵션 중 선택" "이직을 고민 중입니다"
        "후회 없는 선택" "" (by norm_num) (by norm_num)))

/-- C5 counterexample: in the reachable duplicate-question scenario the
sequencer emits the slot-2 deterministic fallback even though the same text
was already emitted at slot 1 (the fallback path performs no similarity
check), so two emitted questions satisfy `is_similar`. -/
theorem sequencer_emits_similar_questions :
    Reachable dupT3.1 ∧
    dupT3.1.questions.length = 3 ∧
    dupT3.1.questions.getD 1 "" = fallback_question "logic" 2 3 ∧
    dupT3.1.questions.getD 2 "" = fallback_question "logic" 2 3 ∧
    is_similar (dupT3.1.questions.getD 1 "") (dupT3.1.questions.getD 2 "") = true :=
  ⟨Reachable.turn dupT2.1 [] (.submit "네 알겠습니다 충분히 고민해 보겠습니다") dupT2_reachable,
    by decide⟩

/-- C1 counterexample: in a reachable session with two main answers and no
slot checked, a collaborator failure on the slot-2 conflict check consumes
the reply but does NOT mark slot 2 as checked, and neither does a reply of
`\x7b\x7d` — it parses to the empty JSON object, which the `if not data:`
falsiness guard treats as a failure (the source records the slot only after
a truthy parse), so a retry of the same slot consults the collaborator
again — refuting "marks the slot as checked regardless of outcome". -/
theorem crosscheck_failure_leaves_slot_unchecked :
    Reachable dupT2.1 ∧
    2 ≤ (dupT2.1.answers.filter (fun x => x.kind = "main")).length ∧
    dupT2.1.crosscheck_used_for = [] ∧
    (try_logic_crosscheck_question dupT2.1 2 [none]).2.1.crosscheck_used_for = [] ∧
    (try_logic_crosscheck_question dupT2.1 2 [none]).2.2 = ([] : Oracle) ∧
    safe_json_parse "\x7b\x7d" = some (.jobj []) ∧
    (try_logic_crosscheck_question dupT2.1 2
        [some "\x7b\x7d"]).2.1.crosscheck_used_for = [] ∧
    (try_logic_crosscheck_question dupT2.1 2 [some "\x7b\x7d"]).2.2 = ([] : Oracle) ∧
    (try_logic_crosscheck_question
        (try_logic_crosscheck_question dupT2.1 2 [none]).2.1 2 [none]).2.2 = ([] : Oracle) :=
  ⟨dupT2_reachable, by decide, by decide, by decide, by decide, by rfl, by decide,
    by decide, by decide⟩

/-- C2 counterexample: in a reachable five-answer session the report request
transcript (`build_qa_text_for_report`, embedded verbatim in the report
prompt) still contains the FIRST answer — the report path sends the whole
transcript, not a bounded summary plus the last three or four Q/A pairs (no
summary buffer exists in this code). -/
theorem report_request_contains_full_transcript :
    Reachable longT5.1 ∧
    longT5.1.answers.length = 5 ∧
    pyIn "첫답변고유표식" (longT5.1.answers.getD 0 default).a = true ∧
    pyIn "첫답변고유표식" (build_qa_text_for_report longT5.1) = true := by
  refine ⟨?_, by decide⟩
  exact Reachable.turn longT4.1 [] (.submit "다섯 번째 답변은 장기적인 목표입니다")
    (Reachable.turn longT3.1 [] (.submit "네 번째 답변은 가족의 의견입니다")
      (Reachable.turn longT2.1 [] (.submit "세 번째 답변은 생활의 안정성입니다")
        (Reachable.turn longT1.1 [] (.submit "두 번째 답변은 연봉과 성장 가능성입니다")
          (Reachable.turn sessionB [] (.submit "첫답변고유표식이 들어간 첫 번째 답변입니다")
            (Reachable.init 5 "logic" "진로 고민" "여러 옵션 중 선택" "이직을 고민 중입니다"
              "후회 없는 선택" "" (by norm_num) (by norm_num))))))

/-- C2 amended: the question-generation context block depends only on the
last six raw Q/A pairs (plus session metadata) — replacing the answer list
by its last six entries leaves the block unchanged, so its history portion
is bounded no matter how many answers exist.  (There is no summary buffer in
this code, and the report request instead embeds the whole transcript — see
the counterexample.) -/
theorem context_block_uses_last_six (s : Session) :
    build_context_block s =
      build_context_block { s with answers := s.answers.drop (s.answers.length - 6) } := by
  have hdd : (s.answers.drop (s.answers.length - 6)).drop
      ((s.answers.drop (s.answers.length - 6)).length - 6) =
      s.answers.drop (s.answers.length - 6) := by
    rw [List.length_drop]
    have h0 : s.answers.length - (s.answers.length - 6) - 6 = 0 := by omega
    rw [h0, List.drop_zero]
  unfold build_context_block
  dsimp only
  rw [hdd]
  rfl

/-- C1 amended: the conflict detector (a) returns immediately, consuming no
collaborator reply, when the slot is already checked; (b) marks the slot as
checked exactly when the reply parses to a truthy (non-empty) JSON object —
conflict found or not; and (c) on collaborator failure, parse failure, or a
reply parsing to a falsy (empty) object it leaves the checked set — and
hence the at-most-once guarantee — untouched, merely consuming the reply. -/
theorem crosscheck_marks_only_on_parse (s : Session) (i : ℕ) (o : Oracle) :
    (i ∈ s.crosscheck_used_for →
      try_logic_crosscheck_question s i o = (none, s, o)) ∧
    ((s.answers.filter (fun x => x.kind = "main")).length < 2 →
      try_logic_crosscheck_question s i o = (none, s, o)) ∧
    (∀ r rest, o = r :: rest → i ∉ s.crosscheck_used_for →
      2 ≤ (s.answers.filter (fun x => x.kind = "main")).length →
      ((isBlank r = true ∨ safe_json_parse (r.getD "") = none ∨
          (∃ d, safe_json_parse (r.getD "") = some d ∧ pyTruthy d = false)) →
        (try_logic_crosscheck_question s i o).2.1 = s ∧
        (try_logic_crosscheck_question s i o).2.2 = rest) ∧
      (∀ d, safe_json_parse (r.getD "") = some d → isBlank r = false →
        pyTruthy d = true →
        (try_logic_crosscheck_question s i o).2.1.crosscheck_used_for =
          sortNats (i :: s.crosscheck_used_for) ∧
        (try_logic_crosscheck_question s i o).2.2 = rest)) := by
  refine ⟨?_, ?_, ?_⟩
  · intro hmem
    unfold try_logic_crosscheck_question
    rw [if_pos hmem]
  · intro hlt
    unfold try_logic_crosscheck_question
    by_cases h1 : i ∈ s.crosscheck_used_for
    · rw [if_pos h1]
    · rw [if_neg h1, if_pos hlt]
  · rintro r rest rfl hmem hge
    unfold try_logic_crosscheck_question
    rw [if_neg hmem, if_neg (by omega)]
    dsimp only [call_openai_text]
    constructor
    · rintro (hb | hp | ⟨d, hd, hf⟩)
      · rw [if_pos hb]
        exact ⟨rfl, rfl⟩
      · by_cases hb : isBlank r = true
        · rw [if_pos hb]; exact ⟨rfl, rfl⟩
        · rw [if_neg hb, hp]
          exact ⟨rfl, rfl⟩
      · by_cases hb : isBlank r = true
        · rw [if_pos hb]; exact ⟨rfl, rfl⟩
        · rw [if_neg hb, hd]
          dsimp only
          rw [if_pos (by simp [hf])]
          exact ⟨rfl, rfl⟩
    · intro d hd hb ht
      rw [if_neg (by simp [hb]), hd]
      dsimp only
      rw [if_neg (by simp [ht])]
      split_ifs <;> exact ⟨rfl, rfl⟩

/-- C1 amended witness: on a reachable session with two main answers, a
parsed truthy no-conflict reply marks slot 2 as checked. -/
theorem crosscheck_marks_only_on_parse_witness :
    (try_logic_crosscheck_question dupT2.1 2
        [some "\x7b\"has_conflict\": false\x7d"]).2.1.crosscheck_used_for =
      sortNats (2 :: dupT2.1.crosscheck_used_for) ∧
    (try_logic_crosscheck_question dupT2.1 2
        [some "\x7b\"has_conflict\": false\x7d"]).2.2 = ([] : Oracle) :=
  ((crosscheck_marks_only_on_parse dupT2.1 2 _).2.2
      (some "\x7b\"has_conflict\": false\x7d") [] rfl (by decide) (by decide)).2
    (.jobj [("has_conflict", .jbool false)]) (by rfl) (by decide) (by decide)

/-- C5 amended: every question the sequencer emits is either checked to be
dissimilar from all previously asked questions (conflict questions and both
generation attempts) or is the deterministic fallback for the slot, which is
emitted WITHOUT a similarity check (see the counterexample for a resulting
duplicate). -/
theorem emitted_question_fallback_or_dissimilar (i n nonce1 nonce2 : ℕ)
    (s : Session) (o : Oracle) :
    (generate_question i n nonce1 nonce2 s o).1 =
        fallback_question (coach_by_id s.coach_id) i n ∨
      s.questions.all
        (fun pq => !(is_similar (generate_question i n nonce1 nonce2 s o).1 pq)) = true := by
  unfold generate_question
  dsimp only
  split
  · rename_i cq heq
    split_ifs with h1 h2 h3 h4 h5
    · right
      simpa [List.all_eq_true, List.any_eq_true] using h1.2
    · left; rfl
    · right
      simpa [List.all_eq_true, List.any_eq_true] using h3
    · left; rfl
    · right
      simpa [List.all_eq_true, List.any_eq_true] using h5
    · left; rfl
  · split_ifs with h1 h2 h3 h4
    · left; rfl
    · right
      simpa [List.all_eq_true, List.any_eq_true] using h2
    · left; rfl
    · right
      simpa [List.all_eq_true, List.any_eq_true] using h4
    · left; rfl

/-- C7: whenever the first collaborator reply parses to a draft whose
serialization contains a forbidden advice phrase, the report generator sends
exactly one further request, under the original prompt extended with the
stricter no-such-phrasing warning, and still surfaces a document; and no run
ever sends more than two requests. -/
theorem report_regenerates_exactly_once (s : Session) (o : Oracle) :
    (generate_final_report_json s o).sent_user_prompts.length ≤ 2 ∧
    (∀ r1 rest, o = r1 :: rest → isBlank r1 = false →
      ∀ d, safe_json_parse (r1.getD "") = some d →
        contains_forbidden_recommendation (json_dumps d) = true →
        (generate_final_report_json s o).sent_user_prompts =
          [report_user_prompt s, report_user_prompt s ++ report_strict_warning] ∧
        (generate_final_report_json s o).data.isSome = true) := by
  constructor
  · unfold generate_final_report_json
    dsimp only
    repeat' split
    all_goals simp
  · rintro r1 rest rfl hb d hd hforb
    unfold generate_final_report_json
    dsimp only [call_openai_text]
    rw [if_neg (by simp [hb]), hd]
    dsimp only
    rw [if_pos hforb]
    try dsimp only
    split_ifs with h1
    · exact ⟨rfl, rfl⟩
    · split
      · split_ifs <;> exact ⟨rfl, rfl⟩
      · exact ⟨rfl, rfl⟩

/-- C7 witness: a draft containing `추천합니다` triggers exactly one stricter
regeneration request, and a document is still returned even though the
second call fails. -/
theorem report_regenerates_exactly_once_witness :
    (generate_final_report_json sessionA
        [some "\x7b\"coaching_message\": [\"추천합니다\"]\x7d", none]).sent_user_prompts =
      [report_user_prompt sessionA, report_user_prompt sessionA ++ report_strict_warning] ∧
    (generate_final_report_json sessionA
        [some "\x7b\"coaching_message\": [\"추천합니다\"]\x7d", none]).data.isSome = true :=
  (report_regenerates_exactly_once sessionA _).2
    (some "\x7b\"coaching_message\": [\"추천합니다\"]\x7d") [none] rfl (by decide)
    (.jobj [("coaching_message", .jarr [.jstr "추천합니다"])]) (by rfl) (by decide)

/-- C8: report generation always returns a document; when the collaborator
returns no text at all for the report request, the result is exactly the
deterministic fallback document, whose summary is built from the situation
and goal fields, whose `options_mentioned` are the declared options, and
which carries the fixed generic coaching lines and follow-up self-question. -/
theorem report_always_returns_document (s : Session) (o : Oracle) :
    (generate_final_report_json s o).data.isSome = true ∧
    (isBlank (o.headD none) = true →
      (generate_final_report_json s o).data = some (fallback_report_json s) ∧
      jget (objFields (fallback_report_json s)) "summary" = some (.jobj
        [("core_issue", .jstr (pyOr (pyTake 180 (normalize s.situation))
            "핵심 고민이 요약되지 않았습니다.")),
         ("goal", .jstr (pyOr (pyTake 180 (normalize s.goal))
            "목표가 명확히 적히지 않았습니다.")),
         ("constraints", .jarr []),
         ("options_mentioned", .jarr ((parse_options s).map (fun op => .jstr op)))]) ∧
      jget (objFields (fallback_report_json s)) "coaching_message" = some (.jarr
        [.jstr "지금은 ‘정리’가 필요하다는 느낌과, 동시에 ‘확신이 부족하다’는 느낌이 함께 있는 상태처럼 보입니다.",
         .jstr "당신에게 중요한 기준이 무엇인지가 선명해질수록, 선택이 덜 무겁게 느껴질 가능성이 있어요."]) ∧
      jget (objFields (fallback_report_json s)) "next_self_question" =
        some (.jstr "내가 지금 가장 놓치기 싫은 기준 1개는 무엇이고, 왜 그것이 중요한가요?")) := by
  have hcall : (call_openai_text system_prompt_for_report (report_user_prompt s)
      (1/4) o).1 = o.headD none := by
    cases o <;> rfl
  constructor
  · unfold generate_final_report_json
    dsimp only
    repeat' split
    all_goals rfl
  · intro hb
    refine ⟨?_, ?_, ?_, ?_⟩
    · unfold generate_final_report_json
      dsimp only
      rw [if_pos (by rw [hcall]; exact hb)]
    · unfold fallback_report_json
      dsimp only
      split_ifs <;> rfl
    · unfold fallback_report_json
      dsimp only
      split_ifs <;> rfl
    · unfold fallback_report_json
      dsimp only
      split_ifs <;> rfl

/-- C8 witness: with a failing collaborator, the report for a fresh session
is the deterministic fallback document. -/
theorem report_always_returns_document_witness :
    (generate_final_report_json sessionA []).data = some (fallback_report_json sessionA) :=
  ((report_always_returns_document sessionA []).2 (by decide)).1

/-- The conflict detector changes nothing in the session except possibly the
checked-slots list (helper). -/
theorem try_crosscheck_session_shape (s : Session) (i : ℕ) (o : Oracle) :
    ∃ u, (try_logic_crosscheck_question s i o).2.1 =
      { s with crosscheck_used_for := u } := by
  unfold try_logic_crosscheck_question
  dsimp only
  repeat' split
  all_goals
    first
      | exact ⟨s.crosscheck_used_for, rfl⟩
      | exact ⟨sortNats (i :: s.crosscheck_used_for), rfl⟩

/-- Question generation changes nothing in the session except possibly the
checked-slots list (helper). -/
theorem generate_question_session_shape (i n n1 n2 : ℕ) (s : Session) (o : Oracle) :
    ∃ u, (generate_question i n n1 n2 s o).2.1 =
      { s with crosscheck_used_for := u } := by
  obtain ⟨u, hu⟩ := try_crosscheck_session_shape s i o
  unfold generate_question
  dsimp only
  repeat' split
  all_goals exact ⟨u, hu⟩

/-- The `ensure_question` loop only appends questions and updates the
checked-slots list (helper). -/
theorem ensure_question_loop_shape : ∀ (fuel index total : ℕ) (s : Session) (o : Oracle),
    ∃ qs u, (ensure_question_loop fuel index total s o).1 =
      { s with questions := qs, crosscheck_used_for := u } := by
  intro fuel
  induction fuel with
  | zero =>
    intro index total s o
    exact ⟨s.questions, s.crosscheck_used_for, rfl⟩
  | succ k ih =>
    intro index total s o
    unfold ensure_question_loop
    dsimp only
    split_ifs with h
    · obtain ⟨u0, hg⟩ :=
        generate_question_session_shape s.questions.length total 0 0 s o
      obtain ⟨qs, u, hk⟩ := ih index total
        { (generate_question s.questions.length total 0 0 s o).2.1 with
          questions := (generate_question s.questions.length total 0 0 s o).2.1.questions ++
            [(generate_question s.questions.length total 0 0 s o).1] }
        (generate_question s.questions.length total 0 0 s o).2.2
      refine ⟨qs, u, ?_⟩
      rw [hk, hg]
    · exact ⟨s.questions, s.crosscheck_used_for, rfl⟩

/-- `ensure_question` only appends questions and updates the checked-slots
list (helper). -/
theorem ensure_question_shape (index total : ℕ) (s : Session) (o : Oracle) :
    ∃ qs u, (ensure_question index total s o).1 =
      { s with questions := qs, crosscheck_used_for := u } :=
  ensure_question_loop_shape (index + 1) index total s o

/-- C6: on submitting a non-empty answer to a main question, a confused
answer yields a REFRAME (subkind `reframe`, not a probe) and the slot does
not advance — the confused check runs before the too-short check, so this
holds even for answers that are also below the length threshold; a merely
too-short answer yields the `short` probe without advancing; and when the
answer is neither, the interview advances (next slot or the report page). -/
theorem confused_triggers_reframe_not_probe (s : Session) (ans : String) (o : Oracle)
    (hmain : (s.probe_active && decide (s.probe_for_index =
        some (min s.q_index (s.num_questions - 1)))) = false)
    (hne : pyStrip ans ≠ "") :
    (is_confused_answer (pyStrip ans) = true →
      (submit_answer s ans o).1.probe_mode = "reframe" ∧
      (submit_answer s ans o).1.probe_active = true ∧
      (submit_answer s ans o).1.q_index = s.q_index ∧
      (submit_answer s ans o).1.page = s.page) ∧
    (is_confused_answer (pyStrip ans) = false →
      is_too_short_answer (pyStrip ans) = true →
      (submit_answer s ans o).1.probe_mode = "short" ∧
      (submit_answer s ans o).1.q_index = s.q_index ∧
      (submit_answer s ans o).1.page = s.page) ∧
    (is_confused_answer (pyStrip ans) = false →
      is_too_short_answer (pyStrip ans) = false →
      ((submit_answer s ans o).1.page = "report" ∨
        (submit_answer s ans o).1.q_index =
          min (min s.q_index (s.num_questions - 1) + 1) (s.num_questions - 1))) := by
  obtain ⟨qs, u, hes⟩ :=
    ensure_question_shape (min s.q_index (s.num_questions - 1)) s.num_questions s o
  unfold submit_answer
  dsimp only
  rw [hes]
  split_ifs with hA hB hC hD hE
  · exact absurd hA hne
  · exact absurd hB (by simp [hmain])
  · exact ⟨fun _ => ⟨rfl, rfl, rfl, rfl⟩,
      fun hc _ => absurd hC (by simp [hc]),
      fun hc _ => absurd hC (by simp [hc])⟩
  · exact ⟨fun hc => absurd hc hC,
      fun _ _ => ⟨rfl, rfl, rfl⟩,
      fun _ hs => absurd hD (by simp [hs])⟩
  · exact ⟨fun hc => absurd hc hC,
      fun _ hs => absurd hs hD,
      fun _ _ => Or.inl rfl⟩
  · exact ⟨fun hc => absurd hc hC,
      fun _ hs => absurd hs hD,
      fun _ _ => Or.inr rfl⟩

/-- C6 witness: the confused short answer `모르겠어요` on a fresh session
yields a reframe and stays on slot 0. -/
theorem confused_triggers_reframe_not_probe_witness :
    (submit_answer sessionA "모르겠어요" []).1.probe_mode = "reframe" ∧
    (submit_answer sessionA "모르겠어요" []).1.probe_active = true ∧
    (submit_answer sessionA "모르겠어요" []).1.q_index = sessionA.q_index ∧
    (submit_answer sessionA "모르겠어요" []).1.page = sessionA.page :=
  (confused_triggers_reframe_not_probe sessionA "모르겠어요" [] (by decide) (by decide)).1
    (by decide)

/-- Appending a record to a scanned list (helper). -/
theorem probes_ok_append (seen l : List AnswerRecord) (r1 : AnswerRecord) :
    probes_ok seen (l ++ [r1]) =
      (probes_ok seen l &&
        (if r1.kind = "probe" then
          (seen ++ l).any (fun r0 => r0.kind = "main" && r0.main_index == r1.main_index)
        else true)) := by
  induction l generalizing seen with
  | nil => simp [probes_ok]
  | cons x xs ih =>
    simp [probes_ok, ih, List.append_assoc, Bool.and_assoc]

/-- Removing the most recent record preserves the probe-precedence check
(helper). -/
theorem probes_ok_dropLast (l : List AnswerRecord) (h : probes_ok [] l = true) :
    probes_ok [] l.dropLast = true := by
  rcases l.eq_nil_or_concat with rfl | ⟨l2, x, rfl⟩
  · simpa using h
  · simp only [List.concat_eq_append] at h ⊢
    rw [List.dropLast_concat]
    rw [probes_ok_append] at h
    exact ((Bool.and_eq_true _ _).mp h).1

/-- One turn preserves the probe-precedence invariant (helper). -/
theorem probe_inv_step (s : Session) (o : Oracle) (e : TurnEvent)
    (hOk : probes_ok [] s.answers = true)
    (hAux : ∀ i, s.probe_active = true → s.probe_for_index = some i →
      s.answers.any (fun r0 => r0.kind = "main" && r0.main_index == i) = true) :
    probes_ok [] (render_turn s o e).1.answers = true ∧
    (∀ i, (render_turn s o e).1.probe_active = true →
      (render_turn s o e).1.probe_for_index = some i →
      (render_turn s o e).1.answers.any
        (fun r0 => r0.kind = "main" && r0.main_index == i) = true) := by
  cases e with
  | back =>
    obtain ⟨qs, u, hes⟩ :=
      ensure_question_shape (min s.q_index (s.num_questions - 1)) s.num_questions s o
    unfold render_turn
    dsimp only
    rw [hes]
    unfold handle_back
    dsimp only
    split
    · exact ⟨hOk, fun i hact _ => by simp at hact⟩
    · split_ifs with hk
      · exact ⟨probes_ok_dropLast s.answers hOk,
          fun i hact _ => by simp at hact⟩
      · exact ⟨probes_ok_dropLast s.answers hOk,
          fun i hact _ => by simp at hact⟩
  | submit ans =>
    obtain ⟨qs, u, hes⟩ :=
      ensure_question_shape (min s.q_index (s.num_questions - 1)) s.num_questions s o
    unfold render_turn submit_answer
    dsimp only
    rw [hes]
    split_ifs with hA hB hC hD hE
    · exact ⟨hOk, hAux⟩
    · -- probe submission: the probe record is preceded by its main record
      rw [Bool.and_eq_true] at hB
      have hact : s.probe_active = true := hB.1
      have hidx : s.probe_for_index = some (min s.q_index (s.num_questions - 1)) :=
        of_decide_eq_true hB.2
      have hmem := hAux _ hact hidx
      constructor
      · show probes_ok [] (s.answers ++ [_]) = true
        rw [probes_ok_append]
        simp [hOk, hmem]
      · exact fun i hact2 _ => by simp at hact2
    · -- confused: main record appended, probe re-armed at this slot
      constructor
      · show probes_ok [] (s.answers ++ [_]) = true
        rw [probes_ok_append]
        simp [hOk]
      · intro i hact2 hidx2
        have : i = min s.q_index (s.num_questions - 1) := by
          simpa using hidx2.symm
        subst this
        show (s.answers ++ [_]).any _ = true
        simp
    · -- too short: same as confused
      constructor
      · show probes_ok [] (s.answers ++ [_]) = true
        rw [probes_ok_append]
        simp [hOk]
      · intro i hact2 hidx2
        have : i = min s.q_index (s.num_questions - 1) := by
          simpa using hidx2.symm
        subst this
        show (s.answers ++ [_]).any _ = true
        simp
    · -- report transition: main record appended, probe state untouched
      constructor
      · show probes_ok [] (s.answers ++ [_]) = true
        rw [probes_ok_append]
        simp [hOk]
      · intro i hact2 hidx2
        have := hAux i hact2 hidx2
        show (s.answers ++ [_]).any _ = true
        simp only [List.any_append, Bool.or_eq_true]
        exact Or.inl this
    · -- ordinary advance: main record appended, probe state untouched
      constructor
      · show probes_ok [] (s.answers ++ [_]) = true
        rw [probes_ok_append]
        simp [hOk]
      · intro i hact2 hidx2
        have := hAux i hact2 hidx2
        show (s.answers ++ [_]).any _ = true
        simp only [List.any_append, Bool.or_eq_true]
        exact Or.inl this

/-- C3 amended: in every reachable session state, every probe/reframe
AnswerRecord is PRECEDED in the answers list by a main-kind AnswerRecord
for the same slot index — the main answer is recorded immediately on
submission (even when classified confused or too short) and the
probe/reframe record follows it; the probes do not precede the accepted
main record, and a slot can hold two main-kind records (see the
counterexample). -/
theorem probe_records_follow_their_main (s : Session) (h : Reachable s) :
    probes_ok [] s.answers = true := by
  suffices hs : probes_ok [] s.answers = true ∧
      (∀ i, s.probe_active = true → s.probe_for_index = some i →
        s.answers.any (fun r0 => r0.kind = "main" && r0.main_index == i) = true)
    from hs.1
  induction h with
  | init nq cid cat dt sit goal opts h2 h10 =>
    exact ⟨rfl, fun i hact _ => absurd hact Bool.false_ne_true⟩
  | turn s o e hr ih => exact probe_inv_step s o e ih.1 ih.2

/-- C3 amended witness: the invariant evaluated on the reachable state in
which slot 0 has a confused main answer followed by its reframe record. -/
theorem probe_records_follow_their_main_witness :
    probes_ok [] backT2.1.answers = true :=
  probe_records_follow_their_main backT2.1
    (Reachable.turn backT1.1 [] (.submit "그래도 생각해 보면 안정이 더 중요합니다")
      (Reachable.turn sessionA [] (.submit "모르겠어요")
        (Reachable.init 3 "logic" "진로 고민" "여러 옵션 중 선택" "이직을 고민 중입니다"
          "후회 없는 선택" "" (by norm_num) (by norm_num))))

end Pebble
